import Mathlib

/-!
Verification development for the Panasonic CONT metadata codec
(`panasonicMeta.py`, `pCont.py`, `reveng.py`).

The file format is a stream of unsigned 16-bit little-endian words.  The
decoder (`printCont` in `panasonicMeta.py`) walks that word stream directly
with Python index/slice arithmetic; the encoder (`buildMetadata`) assembles an
ordered list of field descriptors into a byte buffer.  Here both sides are
shallowly embedded: words and bytes are `Nat`s, Python index errors are the
`indexError` value of an explicit error type, Python slices (which clamp at
the ends) are `take`/`drop`, and `struct.pack` range failures are
`structError`.
-/

/-- Error outcomes.  The spec's §7 taxonomy names `truncated`, `headerNotFound`
and `fieldOverflow`; the Python source has no typed errors at all, so the
embedding additionally models the untyped exceptions the code can actually
raise: `indexError` for an out-of-bounds `data[i]` access, `structError` for a
`struct.pack` value out of range, `valueError` for `datetime.datetime(...)`
called with out-of-range calendar fields, and `overflowError` for a
`datetime + timedelta` result beyond `datetime.max`. -/
inductive FormatError where
  | truncated
  | headerNotFound
  | fieldOverflow
  | indexError
  | structError
  | valueError
  | overflowError
deriving DecidableEq

/-- Python `data[i]` on an `array('H')` for a nonnegative literal index:
the element when in range, an `IndexError` otherwise. -/
def pyGet : List ℕ → ℕ → Except FormatError ℕ
  | [], _ => .error .indexError
  | a :: _, 0 => .ok a
  | _ :: l, n + 1 => pyGet l n

/-- Python `data[a:b]` for nonnegative bounds: clamps at both ends and never
raises. -/
def pySlice (l : List ℕ) (a b : ℕ) : List ℕ :=
  (l.take b).drop a

/-- Accumulator loop of `reveng.extractChars`: consecutive NUL words are
collapsed into a single newline (code point 10), other words become their
character; `chr` values out of Unicode range would render as `'?'` (63). -/
def extractCharsGo : List ℕ → List ℕ → List ℕ
  | s, [] => s
  | s, a :: l =>
    if a = 0 then
      if s ≠ [] ∧ s.getLast? ≠ some 10 then extractCharsGo (s ++ [10]) l
      else extractCharsGo s l
    else
      extractCharsGo (s ++ [if a < 1114112 then a else 63]) l

/-- `reveng.extractChars`: extract a character-code string from a word list,
collapsing NUL runs to one newline. -/
def extractChars (l : List ℕ) : List ℕ :=
  extractCharsGo [] l

/-- The decoder's view of a `datetime.datetime` value: the six calendar
fields `printCont` extracts for each timestamp record. -/
structure PyDateTime where
  year : ℕ
  month : ℕ
  day : ℕ
  hour : ℕ
  minute : ℕ
  second : ℕ
deriving DecidableEq

/-- The Gregorian leap-year rule CPython's `datetime` uses for day
validation. -/
def leapYear (y : ℕ) : Bool :=
  (y % 4 == 0 && !(y % 100 == 0)) || y % 400 == 0

/-- Days in a month as `datetime`'s `_DAYS_IN_MONTH` table gives them (month
numbers 1-12; any other month never reaches the day check because the month
check fails first, so its value is irrelevant — 0 here). -/
def daysInMonth (y m : ℕ) : ℕ :=
  if m = 2 then (if leapYear y then 29 else 28)
  else if m = 4 ∨ m = 6 ∨ m = 9 ∨ m = 11 then 30
  else if 1 ≤ m ∧ m ≤ 12 then 31
  else 0

/-- The validation `datetime.datetime(year, month, day, hour, minute,
second)` performs: `MINYEAR (1) <= year <= MAXYEAR (9999)`,
`1 <= month <= 12`, `1 <= day <= days_in_month(year, month)`,
`0 <= hour <= 23`, `0 <= minute <= 59`, `0 <= second <= 59` (the lower
bounds are vacuous over ℕ); any violation raises `ValueError`. -/
def datetimeOk (t : PyDateTime) : Bool :=
  decide (1 ≤ t.year ∧ t.year ≤ 9999 ∧ 1 ≤ t.month ∧ t.month ≤ 12 ∧
    1 ≤ t.day ∧ t.day ≤ daysInMonth t.year t.month ∧
    t.hour ≤ 23 ∧ t.minute ≤ 59 ∧ t.second ≤ 59)

/-- `readContTimestamp` (panasonicMeta.py:63): given the 8-word slice
`data[n:n+8]`, build `datetime(data[1], data[2], data[4], data[5], data[6],
data[7])`.  Index 0 of the slice is never read (it is the padding word) and
index 3 (the flag, typically 5) is skipped.  Accesses happen in Python's
left-to-right argument order, so a short slice fails at the first
out-of-range index; words that pass the index check but form an invalid
calendar date raise `datetime`'s `ValueError`. -/
def readContTimestamp (d : List ℕ) : Except FormatError PyDateTime := do
  let y ← pyGet d 1
  let mo ← pyGet d 2
  let dy ← pyGet d 4
  let h ← pyGet d 5
  let mi ← pyGet d 6
  let s ← pyGet d 7
  if datetimeOk ⟨y, mo, dy, h, mi, s⟩ then
    pure { year := y, month := mo, day := dy, hour := h, minute := mi,
           second := s }
  else .error .valueError

/-- The largest microsecond offset from 1601-01-01 that
`datetime(1601,1,1) + timedelta(microseconds=...)` accepts:
`datetime.max - datetime(1601,1,1)`.  From 1601-01-01 to 9999-12-31 there
are 8398 whole years (3065270 days) plus 2036 leap days plus the 364 days
of 9999 itself, i.e. 3067670 days; adding the final day's
23:59:59.999999 gives `3067670 * 86400000000 + 86399999999` microseconds.
One microsecond more overflows `datetime.max` and raises `OverflowError`
("date value out of range"). -/
def contEpochMaxUs : ℕ := 265046774399999999

/-- `filetimeToTimestamp` (panasonicMeta.py:69): reassemble a little-endian
64-bit Windows FILETIME from four 16-bit words and convert it to the
resulting `datetime`, represented here by its microsecond offset from
1601-01-01.  The script's `filetime/10` is the `int/int` division of the
interpreter it targets, i.e. the floor quotient modelled here, and
`timedelta(microseconds=...)` of that integer is exact (the quotient is far
below `timedelta`'s 999999999-day limit for any 64-bit FILETIME); the final
`datetime(1601,1,1) + timedelta` raises `OverflowError` when the offset
exceeds `datetime.max`, i.e. when the quotient exceeds `contEpochMaxUs`.
Word accesses happen in the source's evaluation order
`data[3], data[2], data[1], data[0]`. -/
def filetimeToTimestamp (d : List ℕ) : Except FormatError ℕ := do
  let w3 ← pyGet d 3
  let w2 ← pyGet d 2
  let w1 ← pyGet d 1
  let w0 ← pyGet d 0
  let usecs := ((w3 <<< 48) + (w2 <<< 32) + (w1 <<< 16) + w0) / 10
  if usecs ≤ contEpochMaxUs then pure usecs else .error .overflowError

/-- One candidate test of the header-length loop (panasonicMeta.py:94):
`data[n] == data[n+8] == data[n+16] == data[n+24] and data[n+1] == data[n+9]`,
with Python's chained-comparison and `and` short-circuiting, so later indices
are only read (and can only raise) when the earlier comparisons succeed. -/
def headerCond (data : List ℕ) (n : ℕ) : Except FormatError Bool := do
  let a ← pyGet data n
  let b ← pyGet data (n + 8)
  if a = b then
    let c ← pyGet data (n + 16)
    if b = c then
      let d ← pyGet data (n + 24)
      if c = d then
        let e ← pyGet data (n + 1)
        let f ← pyGet data (n + 9)
        pure (decide (e = f))
      else pure false
    else pure false
  else pure false

/-- The `for n in range(29,38)` loop over the listed candidates: the first
candidate whose test is true is returned; if the list is exhausted without a
break the loop variable keeps its final value 37 and execution simply
continues, so the result is 37 with no error. -/
def detectLoop (data : List ℕ) : List ℕ → Except FormatError ℕ
  | [] => .ok 37
  | n :: ns => do
    let c ← headerCond data n
    if c then pure n else detectLoop data ns

/-- Header-length detection (panasonicMeta.py:92-95): scan candidates 29..37
in order. -/
def detectHeader (data : List ℕ) : Except FormatError ℕ :=
  detectLoop data [29, 30, 31, 32, 33, 34, 35, 36, 37]

/-- `reveng.readFile16`: read a byte sequence as little-endian 16-bit words.
The source computes `count = floor(size/2)` and reads that many words, so a
trailing odd byte is silently discarded. -/
def readFile16 : List ℕ → List ℕ
  | b0 :: b1 :: rest => (b0 + 256 * b1) :: readFile16 rest
  | _ => []

/-- `makeWindowsFiletime` (panasonicMeta.py:270): Unix seconds to Windows
FILETIME (100 ns ticks since 1601-01-01); for a whole-second input
`int(unix_time*10000000)` is the exact product. -/
def makeWindowsFiletime (unix_time : ℕ) : ℕ :=
  116444736000000000 + unix_time * 10000000

/-- The four `struct` formats used by the encoder: `'<H'`, `'<I'`, `'<Q'`,
`'B'`. -/
inductive Fmt where
  | fmtS
  | fmtI
  | fmtL
  | fmtC
deriving DecidableEq

/-- `struct.pack` of one unsigned integer in the given format, as the list of
its little-endian bytes; out-of-range values raise `struct.error`. -/
def packInt : Fmt → ℕ → Except FormatError (List ℕ)
  | .fmtS, v =>
    if v < 65536 then .ok [v % 256, v / 256] else .error .structError
  | .fmtI, v =>
    if v < 4294967296 then
      .ok [v % 256, v / 256 % 256, v / 65536 % 256, v / 16777216 % 256]
    else .error .structError
  | .fmtL, v =>
    if v < 18446744073709551616 then
      .ok [v % 256, v / 256 % 256, v / 65536 % 256, v / 16777216 % 256,
        v / 4294967296 % 256, v / 1099511627776 % 256,
        v / 281474976710656 % 256, v / 72057594037927936 % 256]
    else .error .structError
  | .fmtC, v =>
    if v < 256 then .ok [v] else .error .structError

deriving instance DecidableEq for Except


/-- The datestamp inner loop (panasonicMeta.py:181-183): starting from
`data[x]`, collect words until a zero word is found; walking off the end of
the stream first is an `IndexError`. -/
def scanZeros : List ℕ → Except FormatError (List ℕ)
  | [] => .error .indexError
  | a :: l => if a = 0 then .ok [] else (scanZeros l).map (a :: ·)

/-- One decoded entry of the trailing tagged-record sequence.  Character
strings are stored as the decoder extracts them (`extractChars` output);
FILETIME values are stored as the microsecond offset `filetimeToTimestamp`
produces. -/
inductive Rec where
  | datestamp (chars : List ℕ)
  | videoRef (size : ℕ) (created : ℕ) (name : List ℕ)
  | thumbRef (created : ℕ) (name : List ℕ)
  | xmlRef (created : ℕ) (name : List ℕ)
deriving DecidableEq

/-- The tagged-record scan loop of `printCont` (panasonicMeta.py:174-237),
embedded over the suffix of the word stream that starts at the loop cursor
`i`; every Python access `data[i+k]` becomes index `k` of the suffix, and the
cursor update plus the loop's final `i += 1` become a `drop` of the number of
words consumed.  The loop runs while `i < len(data)`, i.e. while the suffix
is nonempty; a cursor jump past the end simply ends the loop.  The first
argument is recursion fuel: every iteration consumes at least one word, so
any fuel of at least the suffix length gives the loop's exact behaviour
(`scanRecordsF_irrel` below); `scanRecords` instantiates it that way. -/
def scanRecordsF : ℕ → List ℕ → Except FormatError (List Rec)
  | _, [] => .ok []
  | 0, _ :: _ => .ok []
  | fuel + 1, e :: rest =>
    if e = 22 then do
      let cs ← scanZeros (List.drop 2 (e :: rest))
      let recs ← scanRecordsF fuel (List.drop (cs.length + 3) (e :: rest))
      .ok (Rec.datestamp (extractChars cs) :: recs)
    else if e = 1 then do
      let shi ← pyGet (e :: rest) 9
      let slo ← pyGet (e :: rest) 8
      let ft ← filetimeToTimestamp (pySlice (e :: rest) 12 16)
      let lenw ← pyGet (e :: rest) 16
      let recs ← scanRecordsF fuel (List.drop (18 + lenw / 2) (e :: rest))
      .ok (Rec.videoRef ((shi <<< 16) + slo) ft
        (extractChars (pySlice (e :: rest) 17 (17 + lenw / 2))) :: recs)
    else if e = 2 then do
      let ft ← filetimeToTimestamp (pySlice (e :: rest) 8 12)
      let lenw ← pyGet (e :: rest) 12
      let recs ← scanRecordsF fuel (List.drop (14 + lenw / 2) (e :: rest))
      .ok (Rec.thumbRef ft
        (extractChars (pySlice (e :: rest) 13 (13 + lenw / 2))) :: recs)
    else if e = 4 then do
      let ft ← filetimeToTimestamp (pySlice (e :: rest) 2 6)
      let lenw ← pyGet (e :: rest) 6
      let recs ← scanRecordsF fuel (List.drop (8 + lenw / 2) (e :: rest))
      .ok (Rec.xmlRef ft
        (extractChars (pySlice (e :: rest) 7 (7 + lenw / 2))) :: recs)
    else
      scanRecordsF fuel rest

/-- The tagged-record scan at its natural fuel. -/
def scanRecords (l : List ℕ) : Except FormatError (List Rec) :=
  scanRecordsF l.length l

/-- One iteration of the same loop, reported as the number of words the
cursor advances by (the per-tag pointer update followed by the loop's
unconditional `i += 1`).  Reading the tag word of an empty suffix is the
out-of-range case. -/
def scanStep : List ℕ → Except FormatError ℕ
  | [] => .error .indexError
  | e :: rest =>
    if e = 22 then do
      let cs ← scanZeros (List.drop 2 (e :: rest))
      pure ((2 + cs.length) + 1)
    else if e = 1 then do
      let _ ← pyGet (e :: rest) 9
      let _ ← pyGet (e :: rest) 8
      let _ ← filetimeToTimestamp (pySlice (e :: rest) 12 16)
      let lenw ← pyGet (e :: rest) 16
      pure ((17 + lenw / 2) + 1)
    else if e = 2 then do
      let _ ← filetimeToTimestamp (pySlice (e :: rest) 8 12)
      let lenw ← pyGet (e :: rest) 12
      pure ((13 + lenw / 2) + 1)
    else if e = 4 then do
      let _ ← filetimeToTimestamp (pySlice (e :: rest) 2 6)
      let lenw ← pyGet (e :: rest) 6
      pure ((7 + lenw / 2) + 1)
    else
      pure 1

/-- The structured result of one `printCont` traversal: every field the
decoder extracts and prints. -/
structure DecodedCont where
  magic : List ℕ
  headerLen : ℕ
  recorded : PyDateTime
  recordedUtc : PyDateTime
  modified : PyDateTime
  created : PyDateTime
  fileSize : ℕ
  frameW : ℕ
  frameH : ℕ
  aspectW : ℕ
  aspectH : ℕ
  frameRate : ℕ
  audioStream : ℕ
  audioBitrate : ℕ
  audioBitdepth : ℕ
  audioChannels : ℕ
  audioFreq : ℕ
  brand : List ℕ
  device : List ℕ
  records : List Rec
deriving DecidableEq

/-- `printCont` (panasonicMeta.py:78-237) with `unknown_fields=False`, as a
pure decode: the same accesses in the same order, with printed values
collected into a `DecodedCont`.  Fields the source only prints as unknown
binary data are still read (a truncated stream fails at the same point) but
are not retained.  The offsets follow the source exactly: after detection of
`n`, the code does `n += 33`, reads the two file-size words, does `n += 2`,
and sets `x = n + 16`, so with the detected offset called `n` here the
file-size words sit at `n+33`/`n+34` and `x = n+51`. -/
def printCont (data : List ℕ) : Except FormatError DecodedCont := do
  let magic := extractChars (pySlice data 0 7)
  let n ← detectHeader data
  let recorded ← readContTimestamp (pySlice data n (n + 8))
  let recordedUtc ← readContTimestamp (pySlice data (n + 8) (n + 16))
  let modified ← readContTimestamp (pySlice data (n + 16) (n + 24))
  let created ← readContTimestamp (pySlice data (n + 24) (n + 32))
  let hi ← pyGet data (n + 34)
  let lo ← pyGet data (n + 33)
  let _ ← pyGet data (n + 37)
  let _ ← pyGet data (n + 38)
  let _ ← pyGet data (n + 39)
  let _ ← pyGet data (n + 45)
  let _ ← pyGet data (n + 46)
  let _ ← pyGet data (n + 47)
  let _ ← pyGet data (n + 48)
  let _ ← pyGet data (n + 49)
  let _ ← pyGet data (n + 51)
  let frameW ← pyGet data (n + 53)
  let frameH ← pyGet data (n + 55)
  let aspectW ← pyGet data (n + 57)
  let aspectH ← pyGet data (n + 59)
  let frameRate ← pyGet data (n + 61)
  let _ ← pyGet data (n + 63)
  let _ ← pyGet data (n + 65)
  let audioStream ← pyGet data (n + 66)
  let _ ← pyGet data (n + 67)
  let bhi ← pyGet data (n + 70)
  let blo ← pyGet data (n + 69)
  let audioBitdepth ← pyGet data (n + 71)
  let audioChannels ← pyGet data (n + 72)
  let audioFreq ← pyGet data (n + 73)
  let brand := extractChars (pySlice data (n + 77) (n + 205))
  let device := extractChars (pySlice data (n + 205) (n + 333))
  let records ← scanRecords (List.drop (n + 333) data)
  pure { magic := magic, headerLen := n, recorded := recorded,
         recordedUtc := recordedUtc, modified := modified, created := created,
         fileSize := (hi <<< 16) + lo, frameW := frameW, frameH := frameH,
         aspectW := aspectW, aspectH := aspectH, frameRate := frameRate,
         audioStream := audioStream, audioBitrate := (bhi <<< 16) + blo,
         audioBitdepth := audioBitdepth, audioChannels := audioChannels,
         audioFreq := audioFreq, brand := brand, device := device,
         records := records }

/-- The `'data'` entry of one descriptor in `buildMetadata`'s
`file_structure` list.  The Python value is dynamically typed: raw bytes
(descriptors with `'raw': True`), a character string, a single integer or a
list of integers (the latter two distinguished at run time by the
`TypeError` fallback around the iteration). -/
inductive FieldData where
  | rawD (bs : List ℕ)
  | strD (cs : List ℕ)
  | intD (v : ℕ)
  | intsD (vs : List ℕ)
deriving DecidableEq

/-- One descriptor of `file_structure`: its data, its `struct` format (unused
for raw data, where the source dicts omit the `'fmt'` key; `fmtS` stands in),
its `'prenul'` count in bytes (0 when the key is absent) and its optional
`'length'` key. -/
structure Element where
  data : FieldData
  fmt : Fmt
  prenul : ℕ
  length : Option ℕ
deriving DecidableEq

/-- The per-element loop of `buildMetadata`'s string/integer-list packing:
`for c in chars: data += struct.pack(fmt, c)`, appending the packed bytes of
each value in order and stopping at the first `struct.pack` failure. -/
def packSeq (f : Fmt) : List ℕ → Except FormatError (List ℕ)
  | [] => .ok []
  | v :: vs => do
    let b ← packInt f v
    let rest ← packSeq f vs
    .ok (b ++ rest)

/-- The packing of one descriptor's `'data'` into bytes
(panasonicMeta.py:486-501): raw bytes verbatim, strings character by
character through `struct.pack(fmt, ord(c))`, integer lists element-wise,
single integers once. -/
def packData (f : Fmt) : FieldData → Except FormatError (List ℕ)
  | .rawD bs => .ok bs
  | .strD cs => packSeq f cs
  | .intD v => packInt f v
  | .intsD vs => packSeq f vs

/-- The body of the encoder's assembly loop (panasonicMeta.py:477-509) for
one descriptor: emit `prenul` zero bytes, then the packed data; afterwards,
if the descriptor declares a `'length'` strictly greater than the number of
bytes emitted for it (prenul included), pad with zero bytes up to that
length.  Nothing is done — no truncation and no error — when the emitted
bytes meet or exceed the declared length. -/
def packElement (e : Element) : Except FormatError (List ℕ) := do
  let payload ← packData e.fmt e.data
  let body := List.replicate e.prenul 0 ++ payload
  match e.length with
  | none => pure body
  | some L =>
      pure (body ++ (if L > body.length then List.replicate (L - body.length) 0 else []))

/-- The explicit parameters `buildMetadata` feeds into `file_structure`:
the four timestamps, the source file's size and name, the audio descriptor
constants, the two sidecar file names, and the three filesystem creation
times (Unix seconds) whose FILETIMEs are embedded.  File names are lists of
character code points. -/
structure ContParams where
  record : PyDateTime
  recordUtc : PyDateTime
  modified : PyDateTime
  created : PyDateTime
  fileSize : ℕ
  audioStream : ℕ
  audioBitrate : ℕ
  audioBitdepth : ℕ
  audioChannels : ℕ
  audioFrequency : ℕ
  fname : List ℕ
  tmbName : List ℕ
  pmpdName : List ℕ
  m2tsCreation : ℕ
  tmbCreation : ℕ
  pmpdCreation : ℕ
deriving DecidableEq

/-- `makeContTimestamp` (panasonicMeta.py:282): the seven 16-bit fields of a
timestamp record, with the default flag value `x = 5`. -/
def makeContTimestamp (dt : PyDateTime) : List ℕ :=
  [dt.year, dt.month, 5, dt.day, dt.hour, dt.minute, dt.second]

/-- Decimal digit pair `'%d'`/`'%m'` of `strftime`, zero-padded to width 2,
as character codes. -/
def twoDigits (v : ℕ) : List ℕ :=
  [48 + v / 10 % 10, 48 + v % 10]

/-- Four-digit `'%Y'` of `strftime` as character codes (faithful for years up
to 9999, the range `datetime` admits). -/
def fourDigits (v : ℕ) : List ℕ :=
  [48 + v / 1000 % 10, 48 + v / 100 % 10, 48 + v / 10 % 10, 48 + v % 10]

/-- `makeContDateString` (panasonicMeta.py:289): `strftime('%d.%m.%Y')` of
the recording date, as ten character codes (46 is `'.'`). -/
def makeContDateString (dt : PyDateTime) : List ℕ :=
  twoDigits dt.day ++ [46] ++ twoDigits dt.month ++ [46] ++ fourDigits dt.year

/-- Character codes of `'P_Cont_'`. -/
def pContCodes : List ℕ := [80, 95, 67, 111, 110, 116, 95]

/-- Character codes of `'\nCont\n'`. -/
def contLineCodes : List ℕ := [10, 67, 111, 110, 116, 10]

/-- The constant 54-byte camera header blob of `file_structure`. -/
def cameraHeaderBytes : List ℕ :=
  [10, 0, 0, 0, 0, 16, 1, 0, 0, 0, 0, 1, 5, 0, 0, 0, 1, 0, 0, 0,
   76, 0, 0, 0, 2, 0, 0, 0, 228, 2, 0, 0, 5, 0, 0, 0, 254, 2, 0, 0,
   6, 0, 0, 0, 80, 3, 0, 0, 10, 0, 0, 0, 214, 3]

/-- Character codes of `'Panasonic'`. -/
def panasonicCodes : List ℕ := [80, 97, 110, 97, 115, 111, 110, 105, 99]

/-- Character codes of the device string `'01\0' + 'HC-V210/V110\0' + '00\0'
+ '00'`. -/
def deviceCodes : List ℕ :=
  [48, 49, 0, 72, 67, 45, 86, 50, 49, 48, 47, 86, 49, 49, 48, 0, 48, 48, 0,
   48, 48]

/-- The `file_structure` descriptor list of `buildMetadata`
(panasonicMeta.py:382-471), in source order. -/
def file_structure (p : ContParams) : List Element :=
  [⟨.strD pContCodes, .fmtS, 0, none⟩,
   ⟨.strD contLineCodes, .fmtC, 0, none⟩,
   ⟨.rawD cameraHeaderBytes, .fmtS, 0, none⟩,
   ⟨.intsD (makeContTimestamp p.record), .fmtS, 2, none⟩,
   ⟨.intsD (makeContTimestamp p.recordUtc), .fmtS, 2, none⟩,
   ⟨.intsD (makeContTimestamp p.modified), .fmtS, 2, none⟩,
   ⟨.intsD (makeContTimestamp p.created), .fmtS, 2, none⟩,
   ⟨.intD p.fileSize, .fmtI, 2, none⟩,
   ⟨.rawD [128], .fmtS, 4, none⟩,
   ⟨.rawD [16], .fmtS, 0, none⟩,
   ⟨.intD 19064, .fmtS, 0, none⟩,
   ⟨.intD 0, .fmtS, 0, none⟩,
   ⟨.intsD [0, 0, 0, 0, 0], .fmtS, 0, none⟩,
   ⟨.intsD [26570, 240], .fmtS, 0, none⟩,
   ⟨.intsD [1, 256], .fmtS, 0, none⟩,
   ⟨.rawD [32, 0], .fmtS, 0, none⟩,
   ⟨.intD 0, .fmtS, 2, none⟩,
   ⟨.intD 1920, .fmtS, 2, none⟩,
   ⟨.intD 1080, .fmtS, 2, none⟩,
   ⟨.intD 16, .fmtS, 2, none⟩,
   ⟨.intD 9, .fmtS, 2, none⟩,
   ⟨.intD 25, .fmtS, 2, none⟩,
   ⟨.intD 1, .fmtS, 2, none⟩,
   ⟨.intD 128, .fmtS, 2, none⟩,
   ⟨.intD p.audioStream, .fmtS, 0, none⟩,
   ⟨.intD 1, .fmtS, 0, none⟩,
   ⟨.intD p.audioBitrate, .fmtI, 2, none⟩,
   ⟨.intD p.audioBitdepth, .fmtS, 0, none⟩,
   ⟨.intD p.audioChannels, .fmtS, 0, none⟩,
   ⟨.intD p.audioFrequency, .fmtS, 0, none⟩,
   ⟨.rawD [4, 0, 0, 33], .fmtS, 2, none⟩,
   ⟨.strD panasonicCodes, .fmtS, 0, some 256⟩,
   ⟨.strD deviceCodes, .fmtS, 0, some 254⟩,
   ⟨.rawD [22, 0], .fmtS, 2, none⟩,
   ⟨.strD (makeContDateString p.record), .fmtS, 2, none⟩,
   ⟨.rawD [1, 0], .fmtS, 2, none⟩,
   ⟨.rawD [6, 3], .fmtS, 2, none⟩,
   ⟨.rawD (List.replicate 8 0), .fmtS, 0, none⟩,
   ⟨.intD p.fileSize, .fmtI, 2, none⟩,
   ⟨.rawD (List.replicate 4 0), .fmtS, 0, none⟩,
   ⟨.intD (makeWindowsFiletime p.m2tsCreation), .fmtL, 0, none⟩,
   ⟨.intD (2 * p.fname.length + 2), .fmtS, 0, none⟩,
   ⟨.strD p.fname, .fmtS, 2, none⟩,
   ⟨.rawD [2, 0], .fmtS, 2, none⟩,
   ⟨.rawD (List.replicate 10 0), .fmtS, 2, none⟩,
   ⟨.intD (makeWindowsFiletime p.tmbCreation), .fmtL, 2, none⟩,
   ⟨.intD (2 * p.tmbName.length + 2), .fmtS, 0, none⟩,
   ⟨.strD p.tmbName, .fmtS, 2, none⟩,
   ⟨.rawD [4, 0], .fmtS, 2, none⟩,
   ⟨.intD (makeWindowsFiletime p.pmpdCreation), .fmtL, 2, none⟩,
   ⟨.intD (2 * p.pmpdName.length + 2), .fmtS, 0, none⟩,
   ⟨.strD p.pmpdName, .fmtS, 2, none⟩,
   ⟨.rawD [0, 0], .fmtS, 0, none⟩]

/-- The byte-assembly loop of `buildMetadata` (panasonicMeta.py:477-509):
pack each descriptor in order and append the results. -/
def buildLoop : List Element → Except FormatError (List ℕ)
  | [] => .ok []
  | e :: es => do
    let bs ← packElement e
    let rest ← buildLoop es
    .ok (bs ++ rest)

/-- `buildMetadata` (panasonicMeta.py:473-509): assemble the whole descriptor
list into one byte buffer.  A `struct.pack` failure (value out of range for
its format) aborts at that descriptor, exactly as the uncaught Python
exception would. -/
def buildMetadata (p : ContParams) : Except FormatError (List ℕ) :=
  buildLoop (file_structure p)


/-- A 69-word stream head for header-detection experiments: the encoder's
fixed 37-word preamble followed by four plausible timestamp records
(year 2019 in each, so the candidate-37 test passes). -/
def c7Stream : List ℕ :=
  [80, 95, 67, 111, 110, 116, 95, 17162, 28271, 2676,
   10, 0, 4096, 1, 0, 256, 5, 0, 1, 0, 76, 0, 2, 0, 740, 0, 5, 0, 766, 0,
   6, 0, 848, 0, 10, 0, 982,
   0, 2019, 6, 5, 1, 10, 15, 30,
   0, 2019, 6, 5, 1, 8, 15, 30,
   0, 2019, 6, 5, 1, 11, 0, 0,
   0, 2019, 6, 5, 1, 11, 0, 5]

/-- A representative parameter set: the spec's concrete scenario
(`00019.M2TS`, 54321 bytes, recorded 2019-06-01T10:15:30, default audio
parameters), with sidecar names `00019.tmb` / `00019.pmpd` and fixed
filesystem timestamps standing in for the mocked clock. -/
def sampleParams : ContParams :=
  { record := ⟨2019, 6, 1, 10, 15, 30⟩
    recordUtc := ⟨2019, 6, 1, 2, 15, 30⟩
    modified := ⟨2019, 6, 1, 11, 0, 0⟩
    created := ⟨2019, 6, 1, 11, 0, 5⟩
    fileSize := 54321
    audioStream := 4352
    audioBitrate := 256000
    audioBitdepth := 16
    audioChannels := 2
    audioFrequency := 48000
    fname := [48, 48, 48, 49, 57, 46, 77, 50, 84, 83]
    tmbName := [48, 48, 48, 49, 57, 46, 116, 109, 98]
    pmpdName := [48, 48, 48, 49, 57, 46, 112, 109, 112, 100]
    m2tsCreation := 1559345730
    tmbCreation := 1559345731
    pmpdCreation := 1559345732 }

/-- The word image of one encoded timestamp block: the 2-byte prenul followed
by the seven `makeContTimestamp` fields. -/
def tsWords (t : PyDateTime) : List ℕ :=
  [0, t.year, t.month, 5, t.day, t.hour, t.minute, t.second]

/-- The four little-endian 16-bit words of a packed 64-bit FILETIME. -/
def ftWords (v : ℕ) : List ℕ :=
  [v % 65536, v / 65536 % 65536, v / 4294967296 % 65536,
   v / 281474976710656 % 65536]

/-- The word stream `buildMetadata p` serialises (for parameters within the
packable ranges): the fixed 37-word preamble, the four timestamp blocks, the
file size, the constant scaffolding and stream descriptors, the padded brand
and device regions, and the datestamp, video, thumbnail and XML records.
`buildMetadata_eval` proves this is exactly `readFile16` of the encoder's
output. -/
def contStream (p : ContParams) : List ℕ :=
  [80, 95, 67, 111, 110, 116, 95, 17162, 28271, 2676,
   10, 0, 4096, 1, 0, 256, 5, 0, 1, 0, 76, 0, 2, 0, 740, 0, 5, 0, 766, 0,
   6, 0, 848, 0, 10, 0, 982] ++
  (tsWords p.record ++ (tsWords p.recordUtc ++ (tsWords p.modified ++
  (tsWords p.created ++
  ([0, p.fileSize % 65536, p.fileSize / 65536 % 65536,
    0, 0, 4224, 19064, 0, 0, 0, 0, 0, 0, 26570, 240, 1, 256, 32,
    0, 0, 0, 1920, 0, 1080, 0, 16, 0, 9, 0, 25, 0, 1, 0, 128,
    p.audioStream, 1, 0, p.audioBitrate % 65536,
    p.audioBitrate / 65536 % 65536,
    p.audioBitdepth, p.audioChannels, p.audioFrequency, 0, 4, 8448] ++
  (panasonicCodes ++ (List.replicate 119 0 ++
  (deviceCodes ++ (List.replicate 106 0 ++
  ([0, 22, 0] ++ (makeContDateString p.record ++
  ([0, 1, 0, 774, 0, 0, 0, 0, 0, p.fileSize % 65536,
    p.fileSize / 65536 % 65536, 0, 0] ++
  (ftWords (makeWindowsFiletime p.m2tsCreation) ++
  ([2 * p.fname.length + 2, 0] ++ (p.fname ++
  ([0, 2, 0, 0, 0, 0, 0, 0, 0] ++
  (ftWords (makeWindowsFiletime p.tmbCreation) ++
  ([2 * p.tmbName.length + 2, 0] ++ (p.tmbName ++
  ([0, 4, 0] ++
  (ftWords (makeWindowsFiletime p.pmpdCreation) ++
  ([2 * p.pmpdName.length + 2, 0] ++ (p.pmpdName ++
  [0])))))))))))))))))))))))

/-- The full pipeline: build the byte buffer, load it as 16-bit
words, decode. -/
def contPipeline (p : ContParams) : Except FormatError DecodedCont :=
  ((buildMetadata p).map readFile16).bind printCont

theorem pyGet_nil (n : ℕ) : pyGet [] n = .error .indexError := by
  cases n <;> rfl

theorem pyGet_cons_succ (a : ℕ) (l : List ℕ) (n : ℕ) :
    pyGet (a :: l) (n + 1) = pyGet l n := rfl

theorem excBindCongr {α β : Type} {x : Except FormatError α}
    {f g : α → Except FormatError β} (h : ∀ a, f a = g a) :
    (x >>= f) = (x >>= g) := by
  cases x <;> simp only [Bind.bind, Except.bind, h]

/-- Any two fuels at least the suffix length run the scan loop identically. -/
theorem scanRecordsF_irrel :
    ∀ (f1 f2 : ℕ) (l : List ℕ), l.length ≤ f1 → l.length ≤ f2 →
      scanRecordsF f1 l = scanRecordsF f2 l := by
  intro f1
  induction f1 with
  | zero =>
    intro f2 l h1 _
    have hl : l = [] := List.eq_nil_of_length_eq_zero (by omega)
    subst hl
    cases f2 <;> rfl
  | succ g ih =>
    intro f2 l h1 h2
    cases l with
    | nil => cases f2 <;> rfl
    | cons e rest =>
      cases f2 with
      | zero => simp at h2
      | succ f2' =>
        simp only [List.length_cons] at h1 h2
        simp only [scanRecordsF]
        by_cases h22 : e = 22
        · simp only [h22, if_pos]
          apply excBindCongr; intro cs
          rw [ih f2' _ (by simp only [List.length_drop, List.length_cons]; omega)
            (by simp only [List.length_drop, List.length_cons]; omega)]
        · by_cases h1t : e = 1
          · simp only [h22, h1t, if_pos, if_neg]
            apply excBindCongr; intro shi
            apply excBindCongr; intro slo
            apply excBindCongr; intro ft
            apply excBindCongr; intro lenw
            rw [ih f2' _ (by simp only [List.length_drop, List.length_cons]; omega)
              (by simp only [List.length_drop, List.length_cons]; omega)]
          · by_cases h2t : e = 2
            · simp only [h22, h1t, h2t, if_pos, if_neg]
              apply excBindCongr; intro ft
              apply excBindCongr; intro lenw
              rw [ih f2' _ (by simp only [List.length_drop, List.length_cons]; omega)
                (by simp only [List.length_drop, List.length_cons]; omega)]
            · by_cases h4t : e = 4
              · simp only [h22, h1t, h2t, h4t, if_pos, if_neg]
                apply excBindCongr; intro ft
                apply excBindCongr; intro lenw
                rw [ih f2' _ (by simp only [List.length_drop, List.length_cons]; omega)
                  (by simp only [List.length_drop, List.length_cons]; omega)]
              · simp only [h22, h1t, h2t, h4t, if_neg]
                exact ih f2' rest (by omega) (by omega)

/-- One unfolding step of the scan loop, with the recursion expressed through
`scanRecords` itself. -/
theorem scanRecords_cons (e : ℕ) (rest : List ℕ) :
    scanRecords (e :: rest) =
      (if e = 22 then do
        let cs ← scanZeros (List.drop 2 (e :: rest))
        let recs ← scanRecords (List.drop (cs.length + 3) (e :: rest))
        .ok (Rec.datestamp (extractChars cs) :: recs)
      else if e = 1 then do
        let shi ← pyGet (e :: rest) 9
        let slo ← pyGet (e :: rest) 8
        let ft ← filetimeToTimestamp (pySlice (e :: rest) 12 16)
        let lenw ← pyGet (e :: rest) 16
        let recs ← scanRecords (List.drop (18 + lenw / 2) (e :: rest))
        .ok (Rec.videoRef ((shi <<< 16) + slo) ft
          (extractChars (pySlice (e :: rest) 17 (17 + lenw / 2))) :: recs)
      else if e = 2 then do
        let ft ← filetimeToTimestamp (pySlice (e :: rest) 8 12)
        let lenw ← pyGet (e :: rest) 12
        let recs ← scanRecords (List.drop (14 + lenw / 2) (e :: rest))
        .ok (Rec.thumbRef ft
          (extractChars (pySlice (e :: rest) 13 (13 + lenw / 2))) :: recs)
      else if e = 4 then do
        let ft ← filetimeToTimestamp (pySlice (e :: rest) 2 6)
        let lenw ← pyGet (e :: rest) 6
        let recs ← scanRecords (List.drop (8 + lenw / 2) (e :: rest))
        .ok (Rec.xmlRef ft
          (extractChars (pySlice (e :: rest) 7 (7 + lenw / 2))) :: recs)
      else scanRecords rest) := by
  show scanRecordsF (e :: rest).length (e :: rest) = _
  simp only [List.length_cons]
  simp only [scanRecordsF]
  unfold scanRecords
  by_cases h22 : e = 22
  · simp only [h22, if_pos]
    apply excBindCongr; intro cs
    rw [scanRecordsF_irrel rest.length _ _
      (by simp only [List.length_drop, List.length_cons]; omega)
      (le_refl _)]
  · by_cases h1t : e = 1
    · simp only [h22, h1t, if_pos, if_neg]
      apply excBindCongr; intro shi
      apply excBindCongr; intro slo
      apply excBindCongr; intro ft
      apply excBindCongr; intro lenw
      rw [scanRecordsF_irrel rest.length _ _
        (by simp only [List.length_drop, List.length_cons]; omega)
        (le_refl _)]
    · by_cases h2t : e = 2
      · simp only [h22, h1t, h2t, if_pos, if_neg]
        apply excBindCongr; intro ft
        apply excBindCongr; intro lenw
        rw [scanRecordsF_irrel rest.length _ _
          (by simp only [List.length_drop, List.length_cons]; omega)
          (le_refl _)]
      · by_cases h4t : e = 4
        · simp only [h22, h1t, h2t, h4t, if_pos, if_neg]
          apply excBindCongr; intro ft
          apply excBindCongr; intro lenw
          rw [scanRecordsF_irrel rest.length _ _
            (by simp only [List.length_drop, List.length_cons]; omega)
            (le_refl _)]
        · simp only [h22, h1t, h2t, h4t, if_neg]
          exact scanRecordsF_irrel rest.length rest.length rest (le_refl _) (le_refl _)

theorem readFile16_length : ∀ bs : List ℕ, (readFile16 bs).length = bs.length / 2
  | [] => rfl
  | [_] => by simp [readFile16]
  | _ :: _ :: rest => by
    simp only [readFile16, List.length_cons, readFile16_length rest]
    omega

theorem readFile16_dropLast_of_odd :
    ∀ bs : List ℕ, bs.length % 2 = 1 → readFile16 bs = readFile16 bs.dropLast
  | [], h => by simp at h
  | [_], _ => rfl
  | b0 :: b1 :: rest, h => by
    have hr : rest.length % 2 = 1 := by
      simp only [List.length_cons] at h; omega
    have hne : rest ≠ [] := by
      intro he; rw [he] at hr; simp at hr
    obtain ⟨r, rs, rfl⟩ := List.exists_cons_of_ne_nil hne
    simp only [List.dropLast, readFile16]
    rw [readFile16_dropLast_of_odd (r :: rs) hr]

/-- C10: loading a file with an odd number of bytes reads `floor(len/2)`
little-endian 16-bit words and silently discards the final byte — the word
stream of the odd-length byte list equals that of the list with its last
byte removed, and its word count is `floor(len/2)`; no error is reported. -/
theorem oddFileLoadDropsByte (bs : List ℕ) (h : bs.length % 2 = 1) :
    readFile16 bs = readFile16 bs.dropLast ∧
    (readFile16 bs).length = bs.length / 2 :=
  ⟨readFile16_dropLast_of_odd bs h, readFile16_length bs⟩

theorem oddFileLoadDropsByte_witness :
    ([7, 1, 9] : List ℕ).length % 2 = 1 ∧
    (readFile16 [7, 1, 9] = readFile16 ([7, 1, 9] : List ℕ).dropLast ∧
      (readFile16 [7, 1, 9]).length = ([7, 1, 9] : List ℕ).length / 2) :=
  ⟨by decide, oddFileLoadDropsByte [7, 1, 9] (by decide)⟩

/-- C6 counterexample: on the concrete 8-word window `[1111, 2019, 6, 5, 1,
10, 15, 30]` the decoder produces the timestamp `(2019, 6, 1, 10, 15, 30)` —
fields taken from the window's last seven words — and not the value `(1111,
2019, 5, 1, 10, 15)` that reading `(year, month, flag, day, hour, minute,
second)` off the first seven words in order would give. -/
theorem timestampLayout_counterexample :
    readContTimestamp [1111, 2019, 6, 5, 1, 10, 15, 30] =
      .ok ⟨2019, 6, 1, 10, 15, 30⟩ ∧
    (⟨2019, 6, 1, 10, 15, 30⟩ : PyDateTime) ≠ ⟨1111, 2019, 5, 1, 10, 15⟩ := by
  decide

/-- C6 amended: for each 8-word timestamp window whose fields form a valid
calendar date (else `datetime` raises `ValueError`), the decoder consumes
the words as `(year, month, flag, day, hour, minute, second)` taken in
order from the window's last seven words (indices 1-7, the flag at index 3
being skipped), the FIRST word being the padding absorbed from the
preceding record's alignment. -/
theorem timestampLayoutAmended (w0 w1 w2 w3 w4 w5 w6 w7 : ℕ)
    (hv : datetimeOk ⟨w1, w2, w4, w5, w6, w7⟩ = true) :
    readContTimestamp [w0, w1, w2, w3, w4, w5, w6, w7] =
      .ok ⟨w1, w2, w4, w5, w6, w7⟩ := by
  rw [show readContTimestamp [w0, w1, w2, w3, w4, w5, w6, w7] =
    if datetimeOk ⟨w1, w2, w4, w5, w6, w7⟩
    then pure ⟨w1, w2, w4, w5, w6, w7⟩
    else Except.error FormatError.valueError from rfl, if_pos hv]
  rfl

theorem timestampLayoutAmended_witness :
    readContTimestamp [1111, 2019, 6, 5, 1, 10, 15, 30] =
      .ok ⟨2019, 6, 1, 10, 15, 30⟩ :=
  timestampLayoutAmended 1111 2019 6 5 1 10 15 30 (by decide)

theorem bytePair0 (v : ℕ) : v % 256 + 256 * (v / 256 % 256) = v % 65536 := by
  omega

theorem bytePair16 (v : ℕ) :
    v / 65536 % 256 + 256 * (v / 16777216 % 256) = v / 65536 % 65536 := by
  omega

theorem bytePair32 (v : ℕ) :
    v / 4294967296 % 256 + 256 * (v / 1099511627776 % 256) =
      v / 4294967296 % 65536 := by
  omega

theorem bytePair48 (v : ℕ) :
    v / 281474976710656 % 256 + 256 * (v / 72057594037927936 % 256) =
      v / 281474976710656 % 65536 := by
  omega

theorem wordSplit (v : ℕ) (h : v < 18446744073709551616) :
    (v / 281474976710656 % 65536) * 281474976710656 +
      (v / 4294967296 % 65536) * 4294967296 +
      (v / 65536 % 65536) * 65536 + v % 65536 = v := by
  omega

/-- C4: for every whole-second timestamp in `datetime`'s representable range
(up to 9999-12-31 23:59:59 UTC, Unix second 253402300799 — beyond it the
real conversion overflows `datetime.max`), converting it to a Windows
FILETIME, packing it as the encoder does (`struct.pack('<Q', ...)`, then
reading the bytes back as 16-bit words) and decoding it with
`filetimeToTimestamp` recovers exactly the original timestamp (as
microseconds since 1601-01-01, the Unix epoch sitting at 11644473600000000
µs); and the FILETIME of the Unix epoch itself is 116444736000000000. -/
theorem filetimeRoundTrip (t : ℕ) (h : t ≤ 253402300799) :
    (do
      let bs ← packInt Fmt.fmtL (makeWindowsFiletime t)
      filetimeToTimestamp (readFile16 bs)) =
      .ok (11644473600000000 + 1000000 * t) ∧
    makeWindowsFiletime 0 = 116444736000000000 := by
  refine ⟨?_, rfl⟩
  have hlt : makeWindowsFiletime t < 18446744073709551616 := by
    unfold makeWindowsFiletime; omega
  simp only [packInt, if_pos hlt, Bind.bind, Except.bind, readFile16,
    filetimeToTimestamp, contEpochMaxUs, pyGet, Nat.shiftLeft_eq, pure,
    Except.pure, Except.ok.injEq]
  unfold makeWindowsFiletime at hlt ⊢
  have e0 := bytePair0 (116444736000000000 + t * 10000000)
  have e16 := bytePair16 (116444736000000000 + t * 10000000)
  have e32 := bytePair32 (116444736000000000 + t * 10000000)
  have e48 := bytePair48 (116444736000000000 + t * 10000000)
  have esplit := wordSplit (116444736000000000 + t * 10000000) hlt
  split
  next hc => simp only [Except.ok.injEq]; omega
  next hc => exact absurd (by omega) hc

theorem filetimeRoundTrip_witness :
    (3 : ℕ) ≤ 253402300799 ∧
    ((do
      let bs ← packInt Fmt.fmtL (makeWindowsFiletime 3)
      filetimeToTimestamp (readFile16 bs)) =
      .ok (11644473600000000 + 1000000 * 3) ∧
    makeWindowsFiletime 0 = 116444736000000000) :=
  ⟨by norm_num, filetimeRoundTrip 3 (by norm_num)⟩

/-- C9 counterexample: a concrete tag-1 (video) record whose length word is 6
(so `str_len = 3`, string words at suffix indices 17-19, last filename
character word at index 19): one iteration advances the cursor by 21 words —
`x + str_len + 1` — not to "one word past the last filename character word",
which would be an advance of 20. -/
theorem scanAdvance_counterexample :
    scanStep [1, 0, 0, 0, 0, 0, 0, 0, 5, 0, 0, 0, 0, 0, 0, 0, 6, 99, 98, 97] =
      .ok 21 ∧ (21 : ℕ) ≠ 20 := by
  decide

/-- C9 amended: after handling a recognized tagged record the cursor advances
one word beyond the record's own computed end — the per-tag pointer update
followed by the loop's unconditional `i += 1`.  For tag 22 that is one word
past the terminating zero (an advance of `(2 + count) + 1`); for tags 1, 2
and 4 it is one word past the end of the length-covered string region, i.e.
TWO words past the last filename character word (advances of
`(17 + len/2) + 1`, `(13 + len/2) + 1` and `(7 + len/2) + 1`). -/
theorem scanAdvanceAmended :
    (∀ (l : List ℕ) (cs : List ℕ), pyGet l 0 = .ok 22 →
      scanZeros (List.drop 2 l) = .ok cs →
      scanStep l = .ok ((2 + cs.length) + 1)) ∧
    (∀ (l : List ℕ) (a b c v : ℕ), pyGet l 0 = .ok 1 →
      pyGet l 9 = .ok a → pyGet l 8 = .ok b →
      filetimeToTimestamp (pySlice l 12 16) = .ok c → pyGet l 16 = .ok v →
      scanStep l = .ok ((17 + v / 2) + 1)) ∧
    (∀ (l : List ℕ) (c v : ℕ), pyGet l 0 = .ok 2 →
      filetimeToTimestamp (pySlice l 8 12) = .ok c → pyGet l 12 = .ok v →
      scanStep l = .ok ((13 + v / 2) + 1)) ∧
    (∀ (l : List ℕ) (c v : ℕ), pyGet l 0 = .ok 4 →
      filetimeToTimestamp (pySlice l 2 6) = .ok c → pyGet l 6 = .ok v →
      scanStep l = .ok ((7 + v / 2) + 1)) := by
  refine ⟨?_, ?_, ?_, ?_⟩
  · intro l cs h0 hz
    match l with
    | e :: rest =>
      have he : e = 22 := by
        simpa [pyGet] using h0
      subst he
      simp only [List.drop_succ_cons, List.drop_one] at hz
      simp [scanStep, hz, Bind.bind, Except.bind, pure, Except.pure]
  · intro l a b c v h0 h9 h8 hft h16
    match l with
    | e :: rest =>
      have he : e = 1 := by simpa [pyGet] using h0
      subst he
      simp [scanStep, h9, h8, hft, h16, Bind.bind, Except.bind, pure,
        Except.pure]
  · intro l c v h0 hft h12
    match l with
    | e :: rest =>
      have he : e = 2 := by simpa [pyGet] using h0
      subst he
      simp [scanStep, hft, h12, Bind.bind, Except.bind, pure, Except.pure]
  · intro l c v h0 hft h6
    match l with
    | e :: rest =>
      have he : e = 4 := by simpa [pyGet] using h0
      subst he
      simp [scanStep, hft, h6, Bind.bind, Except.bind, pure, Except.pure]

theorem scanAdvanceAmended_witness :
    scanStep [22, 5, 7, 0] = .ok ((2 + ([7] : List ℕ).length) + 1) :=
  scanAdvanceAmended.1 [22, 5, 7, 0] [7] (by decide) (by decide)

/-- C5 counterexample: a string field packed as 16-bit units with declared
length 4 produces 12 bytes of output with no error — the content exceeds its
declared length in the produced buffer — and an over-range value for the
16-bit length prefix raises the untyped `struct.error`, not a typed
`FieldOverflow`. -/
theorem fieldOverflow_counterexample :
    packElement ⟨.strD [97, 98, 99, 100, 101, 102], .fmtS, 0, some 4⟩ =
      .ok [97, 0, 98, 0, 99, 0, 100, 0, 101, 0, 102, 0] ∧
    ([97, 0, 98, 0, 99, 0, 100, 0, 101, 0, 102, 0] : List ℕ).length > 4 ∧
    packInt .fmtS 65536 = .error .structError ∧
    FormatError.structError ≠ FormatError.fieldOverflow := by
  decide

/-- C5 amended: for a field whose data packs successfully and which declares
a fixed length, the emitted output is the prenul zeros plus the packed
content, zero-filled on the right exactly up to the declared length when the
content (prenul included) is shorter; when the content is not shorter, the
padding term is empty and the full content is emitted unchanged — no
truncation and no error of any kind. -/
theorem encoderFieldLengthAmended (fd : FieldData) (f : Fmt) (pn L : ℕ)
    (cs : List ℕ) (h : packData f fd = .ok cs) :
    packElement ⟨fd, f, pn, some L⟩ =
      .ok ((List.replicate pn 0 ++ cs) ++
        List.replicate (L - (pn + cs.length)) 0) := by
  simp only [packElement, h, Bind.bind, Except.bind, pure, Except.pure,
    Except.ok.injEq]
  by_cases hL : L > (List.replicate pn 0 ++ cs).length
  · rw [if_pos hL]
    simp only [List.length_append, List.length_replicate] at hL ⊢
  · rw [if_neg hL]
    simp only [List.length_append, List.length_replicate] at hL
    have : L - (pn + cs.length) = 0 := by omega
    rw [this]
    simp

theorem encoderFieldLengthAmended_witness :
    packElement ⟨.strD [65], .fmtS, 2, some 10⟩ =
      .ok ((List.replicate 2 0 ++ [65, 0]) ++
        List.replicate (10 - (2 + ([65, 0] : List ℕ).length)) 0) :=
  encoderFieldLengthAmended (.strD [65]) .fmtS 2 10 [65, 0] (by decide)

/-- C3 counterexample: on a 62-word stream of pairwise-distinct values no
candidate in [29, 38) satisfies the consistency test, yet detection does not
fail: the loop falls through and offset 37 is accepted with no error — there
is no `HeaderNotFound` outcome in the code. -/
theorem detectHeader_counterexample :    headerCond (List.range' 100 62) 29 = .ok false ∧
    headerCond (List.range' 100 62) 30 = .ok false ∧
    headerCond (List.range' 100 62) 31 = .ok false ∧
    headerCond (List.range' 100 62) 32 = .ok false ∧
    headerCond (List.range' 100 62) 33 = .ok false ∧
    headerCond (List.range' 100 62) 34 = .ok false ∧
    headerCond (List.range' 100 62) 35 = .ok false ∧
    headerCond (List.range' 100 62) 36 = .ok false ∧
    headerCond (List.range' 100 62) 37 = .ok false ∧
    detectHeader (List.range' 100 62) = .ok 37 := by
  decide
/-- C3 amended: the first candidate offset in [29, 38) satisfying the
consistency test is accepted; if no candidate satisfies it the loop falls
through and 37 — the last candidate — is used with no error (a stream too
short for the tested indices raises an untyped index error instead of any
typed failure). -/
theorem detectHeaderAmended :
    (∀ data : List ℕ,
      (∀ n, 29 ≤ n → n ≤ 37 → headerCond data n = .ok false) →
      detectHeader data = .ok 37) ∧
    (∀ (data : List ℕ) (m : ℕ), 29 ≤ m → m ≤ 37 →
      headerCond data m = .ok true →
      (∀ k, 29 ≤ k → k < m → headerCond data k = .ok false) →
      detectHeader data = .ok m) := by
  constructor
  · intro data h
    have h29 := h 29 (by norm_num) (by norm_num)
    have h30 := h 30 (by norm_num) (by norm_num)
    have h31 := h 31 (by norm_num) (by norm_num)
    have h32 := h 32 (by norm_num) (by norm_num)
    have h33 := h 33 (by norm_num) (by norm_num)
    have h34 := h 34 (by norm_num) (by norm_num)
    have h35 := h 35 (by norm_num) (by norm_num)
    have h36 := h 36 (by norm_num) (by norm_num)
    have h37 := h 37 (by norm_num) (by norm_num)
    simp [detectHeader, detectLoop, h29, h30, h31, h32, h33, h34, h35, h36, h37, Bind.bind, Except.bind]
  · intro data m hm1 hm2 hm hk
    interval_cases m
    · simp [detectHeader, detectLoop, hm, Bind.bind, Except.bind, pure, Except.pure]
    · have k29 := hk 29 (by norm_num) (by norm_num)
      simp [detectHeader, detectLoop, k29, hm, Bind.bind, Except.bind, pure, Except.pure]
    · have k29 := hk 29 (by norm_num) (by norm_num)
      have k30 := hk 30 (by norm_num) (by norm_num)
      simp [detectHeader, detectLoop, k29, k30, hm, Bind.bind, Except.bind, pure, Except.pure]
    · have k29 := hk 29 (by norm_num) (by norm_num)
      have k30 := hk 30 (by norm_num) (by norm_num)
      have k31 := hk 31 (by norm_num) (by norm_num)
      simp [detectHeader, detectLoop, k29, k30, k31, hm, Bind.bind, Except.bind, pure, Except.pure]
    · have k29 := hk 29 (by norm_num) (by norm_num)
      have k30 := hk 30 (by norm_num) (by norm_num)
      have k31 := hk 31 (by norm_num) (by norm_num)
      have k32 := hk 32 (by norm_num) (by norm_num)
      simp [detectHeader, detectLoop, k29, k30, k31, k32, hm, Bind.bind, Except.bind, pure, Except.pure]
    · have k29 := hk 29 (by norm_num) (by norm_num)
      have k30 := hk 30 (by norm_num) (by norm_num)
      have k31 := hk 31 (by norm_num) (by norm_num)
      have k32 := hk 32 (by norm_num) (by norm_num)
      have k33 := hk 33 (by norm_num) (by norm_num)
      simp [detectHeader, detectLoop, k29, k30, k31, k32, k33, hm, Bind.bind, Except.bind, pure, Except.pure]
    · have k29 := hk 29 (by norm_num) (by norm_num)
      have k30 := hk 30 (by norm_num) (by norm_num)
      have k31 := hk 31 (by norm_num) (by norm_num)
      have k32 := hk 32 (by norm_num) (by norm_num)
      have k33 := hk 33 (by norm_num) (by norm_num)
      have k34 := hk 34 (by norm_num) (by norm_num)
      simp [detectHeader, detectLoop, k29, k30, k31, k32, k33, k34, hm, Bind.bind, Except.bind, pure, Except.pure]
    · have k29 := hk 29 (by norm_num) (by norm_num)
      have k30 := hk 30 (by norm_num) (by norm_num)
      have k31 := hk 31 (by norm_num) (by norm_num)
      have k32 := hk 32 (by norm_num) (by norm_num)
      have k33 := hk 33 (by norm_num) (by norm_num)
      have k34 := hk 34 (by norm_num) (by norm_num)
      have k35 := hk 35 (by norm_num) (by norm_num)
      simp [detectHeader, detectLoop, k29, k30, k31, k32, k33, k34, k35, hm, Bind.bind, Except.bind, pure, Except.pure]
    · have k29 := hk 29 (by norm_num) (by norm_num)
      have k30 := hk 30 (by norm_num) (by norm_num)
      have k31 := hk 31 (by norm_num) (by norm_num)
      have k32 := hk 32 (by norm_num) (by norm_num)
      have k33 := hk 33 (by norm_num) (by norm_num)
      have k34 := hk 34 (by norm_num) (by norm_num)
      have k35 := hk 35 (by norm_num) (by norm_num)
      have k36 := hk 36 (by norm_num) (by norm_num)
      simp [detectHeader, detectLoop, k29, k30, k31, k32, k33, k34, k35, k36, hm, Bind.bind, Except.bind, pure, Except.pure]

theorem detectHeaderAmended_witness :
    detectHeader (List.range' 200 62) = .ok 37 :=
  detectHeaderAmended.1 (List.range' 200 62) (by
    intro n h1 h2
    interval_cases n <;> decide)

theorem headerCondCongr (s1 s2 : List ℕ) (n : ℕ)
    (e0 : pyGet s1 n = pyGet s2 n)
    (e8 : pyGet s1 (n + 8) = pyGet s2 (n + 8))
    (e16 : pyGet s1 (n + 16) = pyGet s2 (n + 16))
    (e24 : pyGet s1 (n + 24) = pyGet s2 (n + 24))
    (e1 : pyGet s1 (n + 1) = pyGet s2 (n + 1))
    (e9 : pyGet s1 (n + 9) = pyGet s2 (n + 9)) :
    headerCond s1 n = headerCond s2 n := by
  simp only [headerCond, e0, e8, e16, e24, e1, e9]

/-- C7 counterexample: two word streams that agree on the magic (words 0-6)
and on the entire four-record timestamp region (words 37 and beyond) but
differ at one opaque preamble word (index 30, inside [7, 37)) receive
different detected offsets: 37 for the first, 29 for the second — the
preamble word collides with the year field of the first record. -/
theorem detectDeterminism_counterexample :
    List.take 7 c7Stream = List.take 7 (c7Stream.set 30 2019) ∧
    List.drop 37 c7Stream = List.drop 37 (c7Stream.set 30 2019) ∧
    detectHeader c7Stream = .ok 37 ∧
    detectHeader (c7Stream.set 30 2019) = .ok 29 ∧
    (37 : ℕ) ≠ 29 := by
  decide

/-- C7 amended: header detection reads only the words at indices 29..61, so
it is deterministic in them — any two streams whose `data[k]` agree for every
k in that window (which overlaps the preamble, not just the timestamp
records) receive the same detected offset. -/
theorem detectDeterminismAmended (s1 s2 : List ℕ)
    (h : ∀ k, 29 ≤ k → k ≤ 61 → pyGet s1 k = pyGet s2 k) :
    detectHeader s1 = detectHeader s2 := by
  have c29 := headerCondCongr s1 s2 29 (h 29 (by norm_num) (by norm_num)) (h 37 (by norm_num) (by norm_num)) (h 45 (by norm_num) (by norm_num)) (h 53 (by norm_num) (by norm_num)) (h 30 (by norm_num) (by norm_num)) (h 38 (by norm_num) (by norm_num))
  have c30 := headerCondCongr s1 s2 30 (h 30 (by norm_num) (by norm_num)) (h 38 (by norm_num) (by norm_num)) (h 46 (by norm_num) (by norm_num)) (h 54 (by norm_num) (by norm_num)) (h 31 (by norm_num) (by norm_num)) (h 39 (by norm_num) (by norm_num))
  have c31 := headerCondCongr s1 s2 31 (h 31 (by norm_num) (by norm_num)) (h 39 (by norm_num) (by norm_num)) (h 47 (by norm_num) (by norm_num)) (h 55 (by norm_num) (by norm_num)) (h 32 (by norm_num) (by norm_num)) (h 40 (by norm_num) (by norm_num))
  have c32 := headerCondCongr s1 s2 32 (h 32 (by norm_num) (by norm_num)) (h 40 (by norm_num) (by norm_num)) (h 48 (by norm_num) (by norm_num)) (h 56 (by norm_num) (by norm_num)) (h 33 (by norm_num) (by norm_num)) (h 41 (by norm_num) (by norm_num))
  have c33 := headerCondCongr s1 s2 33 (h 33 (by norm_num) (by norm_num)) (h 41 (by norm_num) (by norm_num)) (h 49 (by norm_num) (by norm_num)) (h 57 (by norm_num) (by norm_num)) (h 34 (by norm_num) (by norm_num)) (h 42 (by norm_num) (by norm_num))
  have c34 := headerCondCongr s1 s2 34 (h 34 (by norm_num) (by norm_num)) (h 42 (by norm_num) (by norm_num)) (h 50 (by norm_num) (by norm_num)) (h 58 (by norm_num) (by norm_num)) (h 35 (by norm_num) (by norm_num)) (h 43 (by norm_num) (by norm_num))
  have c35 := headerCondCongr s1 s2 35 (h 35 (by norm_num) (by norm_num)) (h 43 (by norm_num) (by norm_num)) (h 51 (by norm_num) (by norm_num)) (h 59 (by norm_num) (by norm_num)) (h 36 (by norm_num) (by norm_num)) (h 44 (by norm_num) (by norm_num))
  have c36 := headerCondCongr s1 s2 36 (h 36 (by norm_num) (by norm_num)) (h 44 (by norm_num) (by norm_num)) (h 52 (by norm_num) (by norm_num)) (h 60 (by norm_num) (by norm_num)) (h 37 (by norm_num) (by norm_num)) (h 45 (by norm_num) (by norm_num))
  have c37 := headerCondCongr s1 s2 37 (h 37 (by norm_num) (by norm_num)) (h 45 (by norm_num) (by norm_num)) (h 53 (by norm_num) (by norm_num)) (h 61 (by norm_num) (by norm_num)) (h 38 (by norm_num) (by norm_num)) (h 46 (by norm_num) (by norm_num))
  simp only [detectHeader, detectLoop, c29, c30, c31, c32, c33, c34, c35, c36, c37]

theorem detectDeterminismAmended_witness :
    detectHeader (List.replicate 62 5) = detectHeader (0 :: List.replicate 61 5) :=
  detectDeterminismAmended _ _ (by
    intro k h1 h2
    interval_cases k <;> rfl)

/-- C8: the encoder is a pure function of its parameter set — with the
sidecar/file timestamps supplied as explicit parameters (the fixed/mocked
clock), two runs over field-wise identical parameters produce byte-identical
output buffers. -/
theorem encodeDeterministic (p q : ContParams)
    (h1 : p.record = q.record) (h2 : p.recordUtc = q.recordUtc)
    (h3 : p.modified = q.modified) (h4 : p.created = q.created)
    (h5 : p.fileSize = q.fileSize) (h6 : p.audioStream = q.audioStream)
    (h7 : p.audioBitrate = q.audioBitrate)
    (h8 : p.audioBitdepth = q.audioBitdepth)
    (h9 : p.audioChannels = q.audioChannels)
    (h10 : p.audioFrequency = q.audioFrequency)
    (h11 : p.fname = q.fname) (h12 : p.tmbName = q.tmbName)
    (h13 : p.pmpdName = q.pmpdName) (h14 : p.m2tsCreation = q.m2tsCreation)
    (h15 : p.tmbCreation = q.tmbCreation)
    (h16 : p.pmpdCreation = q.pmpdCreation) :
    buildMetadata p = buildMetadata q := by
  have hpq : p = q := by
    cases p; cases q; simp_all
  rw [hpq]

theorem encodeDeterministic_witness :
    buildMetadata sampleParams = buildMetadata sampleParams :=
  encodeDeterministic sampleParams sampleParams rfl rfl rfl rfl rfl rfl rfl
    rfl rfl rfl rfl rfl rfl rfl rfl rfl

theorem except_bind_err {α β : Type} {x : Except FormatError α}
    {f : α → Except FormatError β} {e : FormatError}
    (h : (x >>= f) = .error e) :
    x = .error e ∨ ∃ a, x = .ok a ∧ f a = .error e := by
  cases x with
  | error er =>
    left
    simpa [Bind.bind, Except.bind] using h
  | ok a =>
    right
    exact ⟨a, rfl, by simpa [Bind.bind, Except.bind] using h⟩

theorem pyGet_err : ∀ {l : List ℕ} {n : ℕ} {e : FormatError},
    pyGet l n = .error e → e = .indexError
  | [], n, e, h => by
    rw [pyGet_nil] at h
    exact (Except.error.injEq _ _).mp h.symm
  | _ :: _, 0, e, h => by simp [pyGet] at h
  | _ :: l, n + 1, e, h => @pyGet_err l n e h

theorem readContTimestamp_err {d : List ℕ} {e : FormatError}
    (h : readContTimestamp d = .error e) :
    e = .indexError ∨ e = .valueError := by
  unfold readContTimestamp at h
  rcases except_bind_err h with h | ⟨y, _, h⟩
  · exact .inl (pyGet_err h)
  rcases except_bind_err h with h | ⟨mo, _, h⟩
  · exact .inl (pyGet_err h)
  rcases except_bind_err h with h | ⟨dy, _, h⟩
  · exact .inl (pyGet_err h)
  rcases except_bind_err h with h | ⟨hh, _, h⟩
  · exact .inl (pyGet_err h)
  rcases except_bind_err h with h | ⟨mi, _, h⟩
  · exact .inl (pyGet_err h)
  rcases except_bind_err h with h | ⟨sc, _, h⟩
  · exact .inl (pyGet_err h)
  by_cases hok : datetimeOk ⟨y, mo, dy, hh, mi, sc⟩ = true
  · simp [hok, pure, Except.pure] at h
  · simp only [if_neg hok, Except.error.injEq] at h
    exact .inr h.symm

theorem filetimeToTimestamp_err {d : List ℕ} {e : FormatError}
    (h : filetimeToTimestamp d = .error e) :
    e = .indexError ∨ e = .overflowError := by
  unfold filetimeToTimestamp at h
  rcases except_bind_err h with h | ⟨w3, _, h⟩
  · exact .inl (pyGet_err h)
  rcases except_bind_err h with h | ⟨w2, _, h⟩
  · exact .inl (pyGet_err h)
  rcases except_bind_err h with h | ⟨w1, _, h⟩
  · exact .inl (pyGet_err h)
  rcases except_bind_err h with h | ⟨w0, _, h⟩
  · exact .inl (pyGet_err h)
  by_cases hok : ((w3 <<< 48) + (w2 <<< 32) + (w1 <<< 16) + w0) / 10 ≤
      contEpochMaxUs
  · simp [hok, pure, Except.pure] at h
  · simp only [if_neg hok, Except.error.injEq] at h
    exact .inr h.symm

theorem headerCond_err {data : List ℕ} {n : ℕ} {e : FormatError}
    (h : headerCond data n = .error e) : e = .indexError := by
  unfold headerCond at h
  rcases except_bind_err h with h | ⟨a, _, h⟩
  · exact pyGet_err h
  rcases except_bind_err h with h | ⟨b, _, h⟩
  · exact pyGet_err h
  split at h
  · rcases except_bind_err h with h | ⟨c, _, h⟩
    · exact pyGet_err h
    split at h
    · rcases except_bind_err h with h | ⟨d, _, h⟩
      · exact pyGet_err h
      split at h
      · rcases except_bind_err h with h | ⟨x, _, h⟩
        · exact pyGet_err h
        rcases except_bind_err h with h | ⟨y, _, h⟩
        · exact pyGet_err h
        simp [pure, Except.pure] at h
      · simp [pure, Except.pure] at h
    · simp [pure, Except.pure] at h
  · simp [pure, Except.pure] at h

theorem detectLoop_err : ∀ {ns : List ℕ} {data : List ℕ} {e : FormatError},
    detectLoop data ns = .error e → e = .indexError
  | [], _, e, h => by simp [detectLoop] at h
  | n :: ns, data, e, h => by
    unfold detectLoop at h
    rcases except_bind_err h with h | ⟨c, _, h⟩
    · exact headerCond_err h
    split at h
    · simp [pure, Except.pure] at h
    · exact @detectLoop_err ns data e h

theorem detectHeader_err {data : List ℕ} {e : FormatError}
    (h : detectHeader data = .error e) : e = .indexError :=
  detectLoop_err h

theorem scanZeros_err : ∀ {l : List ℕ} {e : FormatError},
    scanZeros l = .error e → e = .indexError
  | [], e, h => by
    simp only [scanZeros, Except.error.injEq] at h
    exact h.symm
  | a :: l, e, h => by
    unfold scanZeros at h
    split at h
    · simp at h
    · cases hz : scanZeros l with
      | error er =>
        rw [hz] at h
        simp only [Except.map, Except.error.injEq] at h
        exact h ▸ scanZeros_err hz
      | ok cs =>
        rw [hz] at h
        simp [Except.map] at h

theorem scanRecordsF_err : ∀ {fuel : ℕ} {l : List ℕ} {e : FormatError},
    scanRecordsF fuel l = .error e → e = .indexError ∨ e = .overflowError := by
  intro fuel
  induction fuel with
  | zero =>
    intro l e h
    cases l <;> simp [scanRecordsF] at h
  | succ g ih =>
    intro l e h
    cases l with
    | nil => simp [scanRecordsF] at h
    | cons hd rest =>
      unfold scanRecordsF at h
      split at h
      · rcases except_bind_err h with h | ⟨_, _, h⟩
        · exact .inl (scanZeros_err h)
        rcases except_bind_err h with h | ⟨_, _, h⟩
        · exact ih h
        simp [pure, Except.pure] at h
      · split at h
        · rcases except_bind_err h with h | ⟨_, _, h⟩
          · exact .inl (pyGet_err h)
          rcases except_bind_err h with h | ⟨_, _, h⟩
          · exact .inl (pyGet_err h)
          rcases except_bind_err h with h | ⟨_, _, h⟩
          · exact filetimeToTimestamp_err h
          rcases except_bind_err h with h | ⟨_, _, h⟩
          · exact .inl (pyGet_err h)
          rcases except_bind_err h with h | ⟨_, _, h⟩
          · exact ih h
          simp [pure, Except.pure] at h
        · split at h
          · rcases except_bind_err h with h | ⟨_, _, h⟩
            · exact filetimeToTimestamp_err h
            rcases except_bind_err h with h | ⟨_, _, h⟩
            · exact .inl (pyGet_err h)
            rcases except_bind_err h with h | ⟨_, _, h⟩
            · exact ih h
            simp [pure, Except.pure] at h
          · split at h
            · rcases except_bind_err h with h | ⟨_, _, h⟩
              · exact filetimeToTimestamp_err h
              rcases except_bind_err h with h | ⟨_, _, h⟩
              · exact .inl (pyGet_err h)
              rcases except_bind_err h with h | ⟨_, _, h⟩
              · exact ih h
              simp [pure, Except.pure] at h
            · exact ih h

theorem scanRecords_err {l : List ℕ} {e : FormatError}
    (h : scanRecords l = .error e) :
    e = .indexError ∨ e = .overflowError :=
  scanRecordsF_err h

/-- C2 amended: the decoder has no typed errors — for every finite word
stream, whenever `printCont` fails it fails with one of the untyped Python
exceptions the source can raise (`IndexError` from an out-of-bounds
`data[i]`, `ValueError` from `datetime()` on invalid calendar words,
`OverflowError` from a FILETIME offset past `datetime.max`), never with a
typed `Truncated`; bounds violations inside sliced string regions do not
even fail, they are silently clamped (see the counterexample). -/
theorem decodeNoTruncatedTyped (ws : List ℕ) (e : FormatError)
    (h : printCont ws = .error e) :
    e = .indexError ∨ e = .valueError ∨ e = .overflowError := by
  unfold printCont at h
  rcases except_bind_err h with h | ⟨_, _, h⟩
  · exact .inl (detectHeader_err h)
  rcases except_bind_err h with h | ⟨_, _, h⟩
  · exact (readContTimestamp_err h).imp id .inl
  rcases except_bind_err h with h | ⟨_, _, h⟩
  · exact (readContTimestamp_err h).imp id .inl
  rcases except_bind_err h with h | ⟨_, _, h⟩
  · exact (readContTimestamp_err h).imp id .inl
  rcases except_bind_err h with h | ⟨_, _, h⟩
  · exact (readContTimestamp_err h).imp id .inl
  rcases except_bind_err h with h | ⟨_, _, h⟩
  · exact .inl (pyGet_err h)
  rcases except_bind_err h with h | ⟨_, _, h⟩
  · exact .inl (pyGet_err h)
  rcases except_bind_err h with h | ⟨_, _, h⟩
  · exact .inl (pyGet_err h)
  rcases except_bind_err h with h | ⟨_, _, h⟩
  · exact .inl (pyGet_err h)
  rcases except_bind_err h with h | ⟨_, _, h⟩
  · exact .inl (pyGet_err h)
  rcases except_bind_err h with h | ⟨_, _, h⟩
  · exact .inl (pyGet_err h)
  rcases except_bind_err h with h | ⟨_, _, h⟩
  · exact .inl (pyGet_err h)
  rcases except_bind_err h with h | ⟨_, _, h⟩
  · exact .inl (pyGet_err h)
  rcases except_bind_err h with h | ⟨_, _, h⟩
  · exact .inl (pyGet_err h)
  rcases except_bind_err h with h | ⟨_, _, h⟩
  · exact .inl (pyGet_err h)
  rcases except_bind_err h with h | ⟨_, _, h⟩
  · exact .inl (pyGet_err h)
  rcases except_bind_err h with h | ⟨_, _, h⟩
  · exact .inl (pyGet_err h)
  rcases except_bind_err h with h | ⟨_, _, h⟩
  · exact .inl (pyGet_err h)
  rcases except_bind_err h with h | ⟨_, _, h⟩
  · exact .inl (pyGet_err h)
  rcases except_bind_err h with h | ⟨_, _, h⟩
  · exact .inl (pyGet_err h)
  rcases except_bind_err h with h | ⟨_, _, h⟩
  · exact .inl (pyGet_err h)
  rcases except_bind_err h with h | ⟨_, _, h⟩
  · exact .inl (pyGet_err h)
  rcases except_bind_err h with h | ⟨_, _, h⟩
  · exact .inl (pyGet_err h)
  rcases except_bind_err h with h | ⟨_, _, h⟩
  · exact .inl (pyGet_err h)
  rcases except_bind_err h with h | ⟨_, _, h⟩
  · exact .inl (pyGet_err h)
  rcases except_bind_err h with h | ⟨_, _, h⟩
  · exact .inl (pyGet_err h)
  rcases except_bind_err h with h | ⟨_, _, h⟩
  · exact .inl (pyGet_err h)
  rcases except_bind_err h with h | ⟨_, _, h⟩
  · exact .inl (pyGet_err h)
  rcases except_bind_err h with h | ⟨_, _, h⟩
  · exact .inl (pyGet_err h)
  rcases except_bind_err h with h | ⟨_, _, h⟩
  · exact .inl (pyGet_err h)
  rcases except_bind_err h with h | ⟨_, _, h⟩
  · exact (scanRecords_err h).imp id .inr
  simp [pure, Except.pure] at h

theorem decodeNoTruncatedTyped_witness :
    FormatError.indexError = .indexError ∨
    FormatError.indexError = .valueError ∨
    FormatError.indexError = .overflowError :=
  decodeNoTruncatedTyped [] FormatError.indexError (by decide)

/-- C2 counterexample: a stream too short for the detection window fails
with the untyped `IndexError` from `data[29]`; an all-zero stream long
enough to detect fails with `datetime`'s untyped `ValueError` (year 0) at
the first timestamp, before any tag scan; neither is a typed `Truncated`.
And a well-formed stream truncated inside a record's string region does not
fail at all: the clamped slice makes the decode succeed. -/
theorem decodeTruncated_counterexample :
    printCont [] = .error .indexError ∧
    printCont (List.replicate 362 0 ++ [1]) = .error .valueError ∧
    FormatError.indexError ≠ FormatError.truncated ∧
    FormatError.valueError ≠ FormatError.truncated ∧
    (printCont (List.take 405 (contStream sampleParams))).isOk = true := by
  refine ⟨by decide, by decide, by decide, by decide, by decide⟩

theorem packSeq_ok : ∀ {cs : List ℕ}, (∀ c ∈ cs, c < 65536) →
    packSeq .fmtS cs = .ok (cs.flatMap (fun c => [c % 256, c / 256]))
  | [], _ => rfl
  | c :: cs, h => by
    have hc : c < 65536 := h c (by simp)
    have ih := @packSeq_ok cs (fun x hx => h x (by simp [hx]))
    simp [packSeq, packInt, hc, ih, Bind.bind, Except.bind, pure, Except.pure]

theorem readFile16_two (b0 b1 : ℕ) (rest : List ℕ) :
    readFile16 (b0 :: b1 :: rest) = (b0 + 256 * b1) :: readFile16 rest := rfl

theorem readFile16_nil : readFile16 [] = [] := rfl

theorem readFile16_pack2 :
    ∀ (cs rest : List ℕ),
      readFile16 (cs.flatMap (fun c => [c % 256, c / 256]) ++ rest) =
        cs ++ readFile16 rest
  | [], rest => rfl
  | c :: cs, rest => by
    have hsh : (c :: cs).flatMap (fun c => [c % 256, c / 256]) ++ rest =
        c % 256 :: c / 256 ::
          (cs.flatMap (fun c => [c % 256, c / 256]) ++ rest) := by
      simp
    rw [hsh, readFile16_two, readFile16_pack2 cs rest, Nat.mod_add_div]
    simp

theorem readFile16_zeroPad :
    ∀ (k : ℕ) (rest : List ℕ),
      readFile16 (List.replicate (2 * k) 0 ++ rest) =
        List.replicate k 0 ++ readFile16 rest
  | 0, rest => rfl
  | k + 1, rest => by
    have hrep : List.replicate (2 * (k + 1)) 0 =
        0 :: 0 :: List.replicate (2 * k) (0 : ℕ) := by
      have : 2 * (k + 1) = (2 * k) + 1 + 1 := by omega
      simp [this, List.replicate]
    rw [hrep]
    simp only [List.cons_append, readFile16_two, readFile16_zeroPad k rest]
    simp [List.replicate]

set_option maxRecDepth 16000
set_option maxHeartbeats 2000000

theorem mcds_lt (t : PyDateTime) : ∀ c ∈ makeContDateString t, c < 65536 := by
  intro c hc
  simp [makeContDateString, twoDigits, fourDigits] at hc
  rcases hc with rfl | rfl | rfl | rfl | rfl | rfl | rfl | rfl | rfl | rfl <;> omega

theorem tsFields_lt {t : PyDateTime}
    (h : t.year < 65536 ∧ t.month < 65536 ∧ t.day < 65536 ∧
      t.hour < 65536 ∧ t.minute < 65536 ∧ t.second < 65536) :
    ∀ v ∈ makeContTimestamp t, v < 65536 := by
  intro v hv
  simp [makeContTimestamp] at hv
  rcases hv with rfl | rfl | rfl | rfl | rfl | rfl | rfl <;> omega

/-- Under the packable-range side conditions, the encoder succeeds and its
byte buffer reads back (as 16-bit words) to exactly `contStream p`. -/
theorem buildMetadata_eval (p : ContParams)
    (h1 : p.record.year < 65536 ∧ p.record.month < 65536 ∧
      p.record.day < 65536 ∧ p.record.hour < 65536 ∧
      p.record.minute < 65536 ∧ p.record.second < 65536)
    (h2 : p.recordUtc.year < 65536 ∧ p.recordUtc.month < 65536 ∧
      p.recordUtc.day < 65536 ∧ p.recordUtc.hour < 65536 ∧
      p.recordUtc.minute < 65536 ∧ p.recordUtc.second < 65536)
    (h3 : p.modified.year < 65536 ∧ p.modified.month < 65536 ∧
      p.modified.day < 65536 ∧ p.modified.hour < 65536 ∧
      p.modified.minute < 65536 ∧ p.modified.second < 65536)
    (h4 : p.created.year < 65536 ∧ p.created.month < 65536 ∧
      p.created.day < 65536 ∧ p.created.hour < 65536 ∧
      p.created.minute < 65536 ∧ p.created.second < 65536)
    (hsz : p.fileSize < 4294967296)
    (has : p.audioStream < 65536) (hbr : p.audioBitrate < 4294967296)
    (hbd : p.audioBitdepth < 65536) (hch : p.audioChannels < 65536)
    (hfq : p.audioFrequency < 65536)
    (hfn : ∀ c ∈ p.fname, c < 65536) (hfl : p.fname.length ≤ 32766)
    (htn : ∀ c ∈ p.tmbName, c < 65536) (htl : p.tmbName.length ≤ 32766)
    (hpn : ∀ c ∈ p.pmpdName, c < 65536) (hpl : p.pmpdName.length ≤ 32766)
    (hcr1 : p.m2tsCreation ≤ 1000000000000)
    (hcr2 : p.tmbCreation ≤ 1000000000000)
    (hcr3 : p.pmpdCreation ≤ 1000000000000) :
    (buildMetadata p).map readFile16 = .ok (contStream p) := by
  have hm1 := tsFields_lt h1
  have hm2ts := tsFields_lt h2
  have hm3 := tsFields_lt h3
  have hm4 := tsFields_lt h4
  have hF1 : makeWindowsFiletime p.m2tsCreation < 18446744073709551616 := by
    unfold makeWindowsFiletime; omega
  have hF2 : makeWindowsFiletime p.tmbCreation < 18446744073709551616 := by
    unfold makeWindowsFiletime; omega
  have hF3 : makeWindowsFiletime p.pmpdCreation < 18446744073709551616 := by
    unfold makeWindowsFiletime; omega
  have hL1 : 2 * p.fname.length + 2 < 65536 := by omega
  have hL2 : 2 * p.tmbName.length + 2 < 65536 := by omega
  have hL3 : 2 * p.pmpdName.length + 2 < 65536 := by omega
  have E1 : packElement ⟨.strD pContCodes, .fmtS, 0, none⟩ = .ok [80, 0, 95, 0, 67, 0, 111, 0, 110, 0, 116, 0, 95, 0] := by decide
  have E2 : packElement ⟨.strD contLineCodes, .fmtC, 0, none⟩ = .ok [10, 67, 111, 110, 116, 10] := by decide
  have E3 : packElement ⟨.rawD cameraHeaderBytes, .fmtS, 0, none⟩ = .ok [10, 0, 0, 0, 0, 16, 1, 0, 0, 0, 0, 1, 5, 0, 0, 0, 1, 0, 0, 0, 76, 0, 0, 0, 2, 0, 0, 0, 228, 2, 0, 0, 5, 0, 0, 0, 254, 2, 0, 0, 6, 0, 0, 0, 80, 3, 0, 0, 10, 0, 0, 0, 214, 3] := by decide
  have E4 : packElement ⟨.intsD (makeContTimestamp p.record), .fmtS, 2, none⟩ =
      .ok ([0, 0] ++ (makeContTimestamp p.record).flatMap (fun c => [c % 256, c / 256])) :=
    by simp [packElement, packData, packSeq_ok hm1, List.replicate, Bind.bind, Except.bind, pure, Except.pure]
  have E5 : packElement ⟨.intsD (makeContTimestamp p.recordUtc), .fmtS, 2, none⟩ =
      .ok ([0, 0] ++ (makeContTimestamp p.recordUtc).flatMap (fun c => [c % 256, c / 256])) :=
    by simp [packElement, packData, packSeq_ok hm2ts, List.replicate, Bind.bind, Except.bind, pure, Except.pure]
  have E6 : packElement ⟨.intsD (makeContTimestamp p.modified), .fmtS, 2, none⟩ =
      .ok ([0, 0] ++ (makeContTimestamp p.modified).flatMap (fun c => [c % 256, c / 256])) :=
    by simp [packElement, packData, packSeq_ok hm3, List.replicate, Bind.bind, Except.bind, pure, Except.pure]
  have E7 : packElement ⟨.intsD (makeContTimestamp p.created), .fmtS, 2, none⟩ =
      .ok ([0, 0] ++ (makeContTimestamp p.created).flatMap (fun c => [c % 256, c / 256])) :=
    by simp [packElement, packData, packSeq_ok hm4, List.replicate, Bind.bind, Except.bind, pure, Except.pure]
  have E8 : packElement ⟨.intD p.fileSize, .fmtI, 2, none⟩ =
      .ok [0, 0, p.fileSize % 256, p.fileSize / 256 % 256, p.fileSize / 65536 % 256, p.fileSize / 16777216 % 256] :=
    by simp [packElement, packData, packInt, hsz, List.replicate, Bind.bind, Except.bind, pure, Except.pure]
  have E9 : packElement ⟨.rawD [128], .fmtS, 4, none⟩ = .ok [0, 0, 0, 0, 128] := by decide
  have E10 : packElement ⟨.rawD [16], .fmtS, 0, none⟩ = .ok [16] := by decide
  have E11 : packElement ⟨.intD 19064, .fmtS, 0, none⟩ = .ok [120, 74] := by decide
  have E12 : packElement ⟨.intD 0, .fmtS, 0, none⟩ = .ok [0, 0] := by decide
  have E13 : packElement ⟨.intsD [0, 0, 0, 0, 0], .fmtS, 0, none⟩ = .ok [0, 0, 0, 0, 0, 0, 0, 0, 0, 0] := by decide
  have E14 : packElement ⟨.intsD [26570, 240], .fmtS, 0, none⟩ = .ok [202, 103, 240, 0] := by decide
  have E15 : packElement ⟨.intsD [1, 256], .fmtS, 0, none⟩ = .ok [1, 0, 0, 1] := by decide
  have E16 : packElement ⟨.rawD [32, 0], .fmtS, 0, none⟩ = .ok [32, 0] := by decide
  have E17 : packElement ⟨.intD 0, .fmtS, 2, none⟩ = .ok [0, 0, 0, 0] := by decide
  have E18 : packElement ⟨.intD 1920, .fmtS, 2, none⟩ = .ok [0, 0, 128, 7] := by decide
  have E19 : packElement ⟨.intD 1080, .fmtS, 2, none⟩ = .ok [0, 0, 56, 4] := by decide
  have E20 : packElement ⟨.intD 16, .fmtS, 2, none⟩ = .ok [0, 0, 16, 0] := by decide
  have E21 : packElement ⟨.intD 9, .fmtS, 2, none⟩ = .ok [0, 0, 9, 0] := by decide
  have E22 : packElement ⟨.intD 25, .fmtS, 2, none⟩ = .ok [0, 0, 25, 0] := by decide
  have E23 : packElement ⟨.intD 1, .fmtS, 2, none⟩ = .ok [0, 0, 1, 0] := by decide
  have E24 : packElement ⟨.intD 128, .fmtS, 2, none⟩ = .ok [0, 0, 128, 0] := by decide
  have E25 : packElement ⟨.intD p.audioStream, .fmtS, 0, none⟩ =
      .ok [p.audioStream % 256, p.audioStream / 256] :=
    by simp [packElement, packData, packInt, has, List.replicate, Bind.bind, Except.bind, pure, Except.pure]
  have E26 : packElement ⟨.intD 1, .fmtS, 0, none⟩ = .ok [1, 0] := by decide
  have E27 : packElement ⟨.intD p.audioBitrate, .fmtI, 2, none⟩ =
      .ok [0, 0, p.audioBitrate % 256, p.audioBitrate / 256 % 256, p.audioBitrate / 65536 % 256, p.audioBitrate / 16777216 % 256] :=
    by simp [packElement, packData, packInt, hbr, List.replicate, Bind.bind, Except.bind, pure, Except.pure]
  have E28 : packElement ⟨.intD p.audioBitdepth, .fmtS, 0, none⟩ =
      .ok [p.audioBitdepth % 256, p.audioBitdepth / 256] :=
    by simp [packElement, packData, packInt, hbd, List.replicate, Bind.bind, Except.bind, pure, Except.pure]
  have E29 : packElement ⟨.intD p.audioChannels, .fmtS, 0, none⟩ =
      .ok [p.audioChannels % 256, p.audioChannels / 256] :=
    by simp [packElement, packData, packInt, hch, List.replicate, Bind.bind, Except.bind, pure, Except.pure]
  have E30 : packElement ⟨.intD p.audioFrequency, .fmtS, 0, none⟩ =
      .ok [p.audioFrequency % 256, p.audioFrequency / 256] :=
    by simp [packElement, packData, packInt, hfq, List.replicate, Bind.bind, Except.bind, pure, Except.pure]
  have E31 : packElement ⟨.rawD [4, 0, 0, 33], .fmtS, 2, none⟩ = .ok [0, 0, 4, 0, 0, 33] := by decide
  have E32 : packElement ⟨.strD panasonicCodes, .fmtS, 0, some 256⟩ =
      .ok ([80, 0, 97, 0, 110, 0, 97, 0, 115, 0, 111, 0, 110, 0, 105, 0, 99, 0] ++ List.replicate 238 0) := by decide
  have E33 : packElement ⟨.strD deviceCodes, .fmtS, 0, some 254⟩ =
      .ok ([48, 0, 49, 0, 0, 0, 72, 0, 67, 0, 45, 0, 86, 0, 50, 0, 49, 0, 48, 0, 47, 0, 86, 0, 49, 0, 49, 0, 48, 0, 0, 0, 48, 0, 48, 0, 0, 0, 48, 0, 48, 0] ++ List.replicate 212 0) := by decide
  have E34 : packElement ⟨.rawD [22, 0], .fmtS, 2, none⟩ = .ok [0, 0, 22, 0] := by decide
  have E35 : packElement ⟨.strD (makeContDateString p.record), .fmtS, 2, none⟩ =
      .ok ([0, 0] ++ (makeContDateString p.record).flatMap (fun c => [c % 256, c / 256])) :=
    by simp [packElement, packData, packSeq_ok (mcds_lt p.record), List.replicate, Bind.bind, Except.bind, pure, Except.pure]
  have E36 : packElement ⟨.rawD [1, 0], .fmtS, 2, none⟩ = .ok [0, 0, 1, 0] := by decide
  have E37 : packElement ⟨.rawD [6, 3], .fmtS, 2, none⟩ = .ok [0, 0, 6, 3] := by decide
  have E38 : packElement ⟨.rawD (List.replicate 8 0), .fmtS, 0, none⟩ = .ok [0, 0, 0, 0, 0, 0, 0, 0] := by decide
  have E40 : packElement ⟨.rawD (List.replicate 4 0), .fmtS, 0, none⟩ = .ok [0, 0, 0, 0] := by decide
  have E41 : packElement ⟨.intD (makeWindowsFiletime p.m2tsCreation), .fmtL, 0, none⟩ =
      .ok [makeWindowsFiletime p.m2tsCreation % 256, makeWindowsFiletime p.m2tsCreation / 256 % 256, makeWindowsFiletime p.m2tsCreation / 65536 % 256, makeWindowsFiletime p.m2tsCreation / 16777216 % 256, makeWindowsFiletime p.m2tsCreation / 4294967296 % 256, makeWindowsFiletime p.m2tsCreation / 1099511627776 % 256, makeWindowsFiletime p.m2tsCreation / 281474976710656 % 256, makeWindowsFiletime p.m2tsCreation / 72057594037927936 % 256] :=
    by simp [packElement, packData, packInt, hF1, List.replicate, Bind.bind, Except.bind, pure, Except.pure]
  have E42 : packElement ⟨.intD (2 * p.fname.length + 2), .fmtS, 0, none⟩ =
      .ok [(2 * p.fname.length + 2) % 256, (2 * p.fname.length + 2) / 256] :=
    by simp [packElement, packData, packInt, hL1, List.replicate, Bind.bind, Except.bind, pure, Except.pure]
  have E43 : packElement ⟨.strD p.fname, .fmtS, 2, none⟩ =
      .ok ([0, 0] ++ p.fname.flatMap (fun c => [c % 256, c / 256])) :=
    by simp [packElement, packData, packSeq_ok hfn, List.replicate, Bind.bind, Except.bind, pure, Except.pure]
  have E44 : packElement ⟨.rawD [2, 0], .fmtS, 2, none⟩ = .ok [0, 0, 2, 0] := by decide
  have E45 : packElement ⟨.rawD (List.replicate 10 0), .fmtS, 2, none⟩ = .ok [0, 0, 0, 0, 0, 0, 0, 0, 0, 0, 0, 0] := by decide
  have E46 : packElement ⟨.intD (makeWindowsFiletime p.tmbCreation), .fmtL, 2, none⟩ =
      .ok ([0, 0] ++ [makeWindowsFiletime p.tmbCreation % 256, makeWindowsFiletime p.tmbCreation / 256 % 256, makeWindowsFiletime p.tmbCreation / 65536 % 256, makeWindowsFiletime p.tmbCreation / 16777216 % 256, makeWindowsFiletime p.tmbCreation / 4294967296 % 256, makeWindowsFiletime p.tmbCreation / 1099511627776 % 256, makeWindowsFiletime p.tmbCreation / 281474976710656 % 256, makeWindowsFiletime p.tmbCreation / 72057594037927936 % 256]) :=
    by simp [packElement, packData, packInt, hF2, List.replicate, Bind.bind, Except.bind, pure, Except.pure]
  have E47 : packElement ⟨.intD (2 * p.tmbName.length + 2), .fmtS, 0, none⟩ =
      .ok [(2 * p.tmbName.length + 2) % 256, (2 * p.tmbName.length + 2) / 256] :=
    by simp [packElement, packData, packInt, hL2, List.replicate, Bind.bind, Except.bind, pure, Except.pure]
  have E48 : packElement ⟨.strD p.tmbName, .fmtS, 2, none⟩ =
      .ok ([0, 0] ++ p.tmbName.flatMap (fun c => [c % 256, c / 256])) :=
    by simp [packElement, packData, packSeq_ok htn, List.replicate, Bind.bind, Except.bind, pure, Except.pure]
  have E49 : packElement ⟨.rawD [4, 0], .fmtS, 2, none⟩ = .ok [0, 0, 4, 0] := by decide
  have E50 : packElement ⟨.intD (makeWindowsFiletime p.pmpdCreation), .fmtL, 2, none⟩ =
      .ok ([0, 0] ++ [makeWindowsFiletime p.pmpdCreation % 256, makeWindowsFiletime p.pmpdCreation / 256 % 256, makeWindowsFiletime p.pmpdCreation / 65536 % 256, makeWindowsFiletime p.pmpdCreation / 16777216 % 256, makeWindowsFiletime p.pmpdCreation / 4294967296 % 256, makeWindowsFiletime p.pmpdCreation / 1099511627776 % 256, makeWindowsFiletime p.pmpdCreation / 281474976710656 % 256, makeWindowsFiletime p.pmpdCreation / 72057594037927936 % 256]) :=
    by simp [packElement, packData, packInt, hF3, List.replicate, Bind.bind, Except.bind, pure, Except.pure]
  have E51 : packElement ⟨.intD (2 * p.pmpdName.length + 2), .fmtS, 0, none⟩ =
      .ok [(2 * p.pmpdName.length + 2) % 256, (2 * p.pmpdName.length + 2) / 256] :=
    by simp [packElement, packData, packInt, hL3, List.replicate, Bind.bind, Except.bind, pure, Except.pure]
  have E52 : packElement ⟨.strD p.pmpdName, .fmtS, 2, none⟩ =
      .ok ([0, 0] ++ p.pmpdName.flatMap (fun c => [c % 256, c / 256])) :=
    by simp [packElement, packData, packSeq_ok hpn, List.replicate, Bind.bind, Except.bind, pure, Except.pure]
  have E53 : packElement ⟨.rawD [0, 0], .fmtS, 0, none⟩ = .ok [0, 0] := by decide
  have hz238 : ∀ rest : List ℕ, readFile16 (List.replicate 238 0 ++ rest) =
      List.replicate 119 0 ++ readFile16 rest := by
    intro rest
    have h := readFile16_zeroPad 119 rest
    norm_num at h
    exact h
  have hz212 : ∀ rest : List ℕ, readFile16 (List.replicate 212 0 ++ rest) =
      List.replicate 106 0 ++ readFile16 rest := by
    intro rest
    have h := readFile16_zeroPad 106 rest
    norm_num at h
    exact h
  simp only [buildMetadata, file_structure, buildLoop, E1, E2, E3, E4, E5, E6, E7, E8, E9, E10, E11, E12, E13, E14, E15, E16, E17, E18, E19, E20, E21, E22, E23, E24, E25, E26, E27, E28, E29, E30, E31, E32, E33, E34, E35, E36, E37, E38, E40, E41, E42, E43, E44, E45, E46, E47, E48, E49, E50, E51, E52, E53, Bind.bind, Except.bind, pure, Except.pure]
  simp only [Except.map]
  refine congrArg Except.ok ?_
  simp only [makeContTimestamp, makeContDateString, twoDigits, fourDigits,
    List.append_assoc, List.cons_append, List.nil_append,
    List.flatMap_cons, List.flatMap_nil]
  simp only [hz238, hz212, readFile16_two, readFile16_pack2, readFile16_nil]
  simp only [Nat.mod_add_div, bytePair0, bytePair16, bytePair32, bytePair48,
    Nat.reduceAdd, Nat.reduceMul, Nat.reduceDiv, Nat.reduceMod]
  simp only [contStream, tsWords, ftWords, makeContDateString, twoDigits,
    fourDigits, panasonicCodes, deviceCodes,
    List.append_assoc, List.cons_append, List.nil_append]

theorem scanZeros_append_nonzero :
    ∀ (cs R : List ℕ), (∀ c ∈ cs, c ≠ 0) →
      scanZeros (cs ++ 0 :: R) = .ok cs
  | [], R, _ => by simp [scanZeros]
  | c :: cs, R, h => by
    have hc : c ≠ 0 := h c (by simp)
    have ih := scanZeros_append_nonzero cs R (fun x hx => h x (by simp [hx]))
    simp [scanZeros, hc, ih, Except.map]

theorem extractCharsGo_all :
    ∀ (cs s : List ℕ), (∀ c ∈ cs, c ≠ 0 ∧ c < 1114112) →
      extractCharsGo s cs = s ++ cs
  | [], s, _ => by simp [extractCharsGo]
  | c :: cs, s, h => by
    have hc := h c (by simp)
    simp only [extractCharsGo, if_neg hc.1, if_pos hc.2,
      extractCharsGo_all cs (s ++ [c]) (fun x hx => h x (by simp [hx]))]
    simp

theorem extractChars_id {cs : List ℕ} (h : ∀ c ∈ cs, c ≠ 0 ∧ c < 1114112) :
    extractChars cs = cs := by
  simp [extractChars, extractCharsGo_all cs [] h]

theorem extractChars_zeroCons {cs : List ℕ}
    (h : ∀ c ∈ cs, c ≠ 0 ∧ c < 1114112) :
    extractChars (0 :: cs) = cs := by
  have h0 : extractCharsGo [] (0 :: cs) = extractCharsGo [] cs := by
    simp [extractCharsGo]
  show extractCharsGo [] (0 :: cs) = cs
  rw [h0]
  exact extractChars_id h

theorem pySlice_mid (A mid B : List ℕ) (a b : ℕ) (ha : a = A.length)
    (hb : b = A.length + mid.length) :
    pySlice (A ++ (mid ++ B)) a b = mid := by
  subst ha hb
  unfold pySlice
  rw [← List.append_assoc]
  rw [show A.length + mid.length = (A ++ mid).length from by simp]
  rw [List.take_left, List.drop_left]

theorem filetimeToTimestamp_ftWords (F : ℕ)
    (h : F ≤ 2650467743999999999) :
    filetimeToTimestamp (ftWords F) = .ok (F / 10) := by
  have h64 : F < 18446744073709551616 := by omega
  simp only [ftWords, filetimeToTimestamp, contEpochMaxUs, pyGet, Bind.bind,
    Except.bind, pure, Except.pure, Nat.shiftLeft_eq, Nat.reducePow]
  have hws := wordSplit F h64
  split
  next hc => simp only [Except.ok.injEq]; omega
  next hc => exact absurd (by omega) hc

theorem mcds_ne (t : PyDateTime) :
    ∀ c ∈ makeContDateString t, c ≠ 0 ∧ c < 1114112 := by
  intro c hc
  simp [makeContDateString, twoDigits, fourDigits] at hc
  rcases hc with rfl | rfl | rfl | rfl | rfl | rfl | rfl | rfl | rfl | rfl <;>
    omega

theorem mcds_len (t : PyDateTime) : (makeContDateString t).length = 10 := by
  simp [makeContDateString, twoDigits, fourDigits]

theorem scanDatestamp_step (dt rest : List ℕ) (RS : List Rec)
    (hdt : ∀ c ∈ dt, c ≠ 0 ∧ c < 1114112)
    (hrest : scanRecords rest = .ok RS) :
    scanRecords (22 :: 0 :: (dt ++ (0 :: rest))) =
      .ok (Rec.datestamp dt :: RS) := by
  rw [scanRecords_cons]
  rw [if_pos (rfl : (22 : ℕ) = 22)]
  have hz : scanZeros (List.drop 2 (22 :: 0 :: (dt ++ (0 :: rest)))) =
      .ok dt := by
    rw [show List.drop 2 (22 :: 0 :: (dt ++ (0 :: rest))) = dt ++ 0 :: rest
      from rfl]
    exact scanZeros_append_nonzero dt rest (fun c hc => (hdt c hc).1)
  have hdrop : List.drop (dt.length + 3) (22 :: 0 :: (dt ++ (0 :: rest))) =
      rest := by
    rw [show (22 :: 0 :: (dt ++ (0 :: rest))) =
      (22 :: 0 :: dt ++ [0]) ++ rest from by simp]
    rw [show dt.length + 3 = (22 :: 0 :: dt ++ [0]).length from by
      simp <;> omega]
    exact List.drop_left _ _
  simp only [hz, hdrop, hrest, extractChars_id hdt, Bind.bind, Except.bind,
    pure, Except.pure]

theorem scanXml_step (F : ℕ) (name rest : List ℕ) (RS : List Rec)
    (hF : F ≤ 2650467743999999999)
    (hname : ∀ c ∈ name, c ≠ 0 ∧ c < 1114112)
    (hrest : scanRecords rest = .ok RS) :
    scanRecords (4 :: 0 :: (ftWords F ++
      ((2 * name.length + 2) :: 0 :: (name ++ (0 :: rest))))) =
      .ok (Rec.xmlRef (F / 10) name :: RS) := by
  rw [scanRecords_cons]
  rw [if_neg (by decide : ¬(4 : ℕ) = 22), if_neg (by decide : ¬(4 : ℕ) = 1),
    if_neg (by decide : ¬(4 : ℕ) = 2), if_pos (rfl : (4 : ℕ) = 4)]
  have hslice : pySlice (4 :: 0 :: (ftWords F ++
      ((2 * name.length + 2) :: 0 :: (name ++ (0 :: rest))))) 2 6 =
      ftWords F :=
    pySlice_mid [4, 0] (ftWords F) _ 2 6 (by simp) (by simp [ftWords])
  have hget6 : pyGet (4 :: 0 :: (ftWords F ++
      ((2 * name.length + 2) :: 0 :: (name ++ (0 :: rest))))) 6 =
      .ok (2 * name.length + 2) := by
    rw [show (4 :: 0 :: (ftWords F ++
      ((2 * name.length + 2) :: 0 :: (name ++ (0 :: rest))))) =
      4 :: 0 :: F % 65536 :: F / 65536 % 65536 :: F / 4294967296 % 65536 ::
      F / 281474976710656 % 65536 :: (2 * name.length + 2) :: 0 ::
      (name ++ (0 :: rest)) from by simp [ftWords]]
    rfl
  have harith : (2 * name.length + 2) / 2 = name.length + 1 := by omega
  have hslice2 : pySlice (4 :: 0 :: (ftWords F ++
      ((2 * name.length + 2) :: 0 :: (name ++ (0 :: rest))))) 7
      (7 + (name.length + 1)) = 0 :: name :=
    pySlice_mid ([4, 0] ++ ftWords F ++ [2 * name.length + 2]) (0 :: name) _
      7 (7 + (name.length + 1)) (by simp [ftWords])
      (by simp [ftWords] <;> omega)
  have hdrop : List.drop (8 + (name.length + 1)) (4 :: 0 :: (ftWords F ++
      ((2 * name.length + 2) :: 0 :: (name ++ (0 :: rest))))) = rest := by
    rw [show (4 :: 0 :: (ftWords F ++
      ((2 * name.length + 2) :: 0 :: (name ++ (0 :: rest))))) =
      (4 :: 0 :: ftWords F ++ ((2 * name.length + 2) :: 0 :: name) ++ [0]) ++
        rest from by simp]
    rw [show 8 + (name.length + 1) =
      (4 :: 0 :: ftWords F ++ ((2 * name.length + 2) :: 0 :: name) ++
        [0]).length from by simp [ftWords] <;> omega]
    exact List.drop_left _ _
  simp only [hslice, filetimeToTimestamp_ftWords F hF, hget6, harith,
    hslice2, hdrop, hrest, extractChars_zeroCons hname, Bind.bind,
    Except.bind, pure, Except.pure]

theorem scanThumb_step (F : ℕ) (name rest : List ℕ) (RS : List Rec)
    (hF : F ≤ 2650467743999999999)
    (hname : ∀ c ∈ name, c ≠ 0 ∧ c < 1114112)
    (hrest : scanRecords rest = .ok RS) :
    scanRecords (2 :: 0 :: 0 :: 0 :: 0 :: 0 :: 0 :: 0 :: (ftWords F ++
      ((2 * name.length + 2) :: 0 :: (name ++ (0 :: rest))))) =
      .ok (Rec.thumbRef (F / 10) name :: RS) := by
  rw [scanRecords_cons]
  rw [if_neg (by decide : ¬(2 : ℕ) = 22), if_neg (by decide : ¬(2 : ℕ) = 1),
    if_pos (rfl : (2 : ℕ) = 2)]
  have hslice : pySlice (2 :: 0 :: 0 :: 0 :: 0 :: 0 :: 0 :: 0 ::
      (ftWords F ++ ((2 * name.length + 2) :: 0 :: (name ++ (0 :: rest)))))
      8 12 = ftWords F :=
    pySlice_mid [2, 0, 0, 0, 0, 0, 0, 0] (ftWords F) _ 8 12 (by simp)
      (by simp [ftWords])
  have hget12 : pyGet (2 :: 0 :: 0 :: 0 :: 0 :: 0 :: 0 :: 0 ::
      (ftWords F ++ ((2 * name.length + 2) :: 0 :: (name ++ (0 :: rest)))))
      12 = .ok (2 * name.length + 2) := by
    rw [show (2 :: 0 :: 0 :: 0 :: 0 :: 0 :: 0 :: 0 :: (ftWords F ++
      ((2 * name.length + 2) :: 0 :: (name ++ (0 :: rest))))) =
      2 :: 0 :: 0 :: 0 :: 0 :: 0 :: 0 :: 0 :: F % 65536 ::
      F / 65536 % 65536 :: F / 4294967296 % 65536 ::
      F / 281474976710656 % 65536 :: (2 * name.length + 2) :: 0 ::
      (name ++ (0 :: rest)) from by simp [ftWords]]
    rfl
  have harith : (2 * name.length + 2) / 2 = name.length + 1 := by omega
  have hslice2 : pySlice (2 :: 0 :: 0 :: 0 :: 0 :: 0 :: 0 :: 0 ::
      (ftWords F ++ ((2 * name.length + 2) :: 0 :: (name ++ (0 :: rest)))))
      13 (13 + (name.length + 1)) = 0 :: name :=
    pySlice_mid ([2, 0, 0, 0, 0, 0, 0, 0] ++ ftWords F ++
      [2 * name.length + 2]) (0 :: name) _ 13 (13 + (name.length + 1))
      (by simp [ftWords]) (by simp [ftWords] <;> omega)
  have hdrop : List.drop (14 + (name.length + 1)) (2 :: 0 :: 0 :: 0 :: 0 ::
      0 :: 0 :: 0 :: (ftWords F ++
      ((2 * name.length + 2) :: 0 :: (name ++ (0 :: rest))))) = rest := by
    rw [show (2 :: 0 :: 0 :: 0 :: 0 :: 0 :: 0 :: 0 :: (ftWords F ++
      ((2 * name.length + 2) :: 0 :: (name ++ (0 :: rest))))) =
      (2 :: 0 :: 0 :: 0 :: 0 :: 0 :: 0 :: 0 :: ftWords F ++
        ((2 * name.length + 2) :: 0 :: name) ++ [0]) ++ rest from by simp]
    rw [show 14 + (name.length + 1) =
      (2 :: 0 :: 0 :: 0 :: 0 :: 0 :: 0 :: 0 :: ftWords F ++
        ((2 * name.length + 2) :: 0 :: name) ++ [0]).length from by
      simp [ftWords]; omega]
    exact List.drop_left _ _
  simp only [hslice, filetimeToTimestamp_ftWords F hF, hget12, harith,
    hslice2, hdrop, hrest, extractChars_zeroCons hname, Bind.bind,
    Except.bind, pure, Except.pure]

theorem scanVideo_step (sz F : ℕ) (name rest : List ℕ) (RS : List Rec)
    (hsz : sz < 4294967296) (hF : F ≤ 2650467743999999999)
    (hname : ∀ c ∈ name, c ≠ 0 ∧ c < 1114112)
    (hrest : scanRecords rest = .ok RS) :
    scanRecords (1 :: 0 :: 774 :: 0 :: 0 :: 0 :: 0 :: 0 :: sz % 65536 ::
      sz / 65536 % 65536 :: 0 :: 0 :: (ftWords F ++
      ((2 * name.length + 2) :: 0 :: (name ++ (0 :: rest))))) =
      .ok (Rec.videoRef sz (F / 10) name :: RS) := by
  rw [scanRecords_cons]
  rw [if_neg (by decide : ¬(1 : ℕ) = 22), if_pos (rfl : (1 : ℕ) = 1)]
  have hg9 : pyGet (1 :: 0 :: 774 :: 0 :: 0 :: 0 :: 0 :: 0 :: sz % 65536 ::
      sz / 65536 % 65536 :: 0 :: 0 :: (ftWords F ++
      ((2 * name.length + 2) :: 0 :: (name ++ (0 :: rest))))) 9 =
      .ok (sz / 65536 % 65536) := rfl
  have hg8 : pyGet (1 :: 0 :: 774 :: 0 :: 0 :: 0 :: 0 :: 0 :: sz % 65536 ::
      sz / 65536 % 65536 :: 0 :: 0 :: (ftWords F ++
      ((2 * name.length + 2) :: 0 :: (name ++ (0 :: rest))))) 8 =
      .ok (sz % 65536) := rfl
  have hslice : pySlice (1 :: 0 :: 774 :: 0 :: 0 :: 0 :: 0 :: 0 ::
      sz % 65536 :: sz / 65536 % 65536 :: 0 :: 0 :: (ftWords F ++
      ((2 * name.length + 2) :: 0 :: (name ++ (0 :: rest))))) 12 16 =
      ftWords F :=
    pySlice_mid [1, 0, 774, 0, 0, 0, 0, 0, sz % 65536, sz / 65536 % 65536,
      0, 0] (ftWords F) _ 12 16 (by simp) (by simp [ftWords])
  have hget16 : pyGet (1 :: 0 :: 774 :: 0 :: 0 :: 0 :: 0 :: 0 ::
      sz % 65536 :: sz / 65536 % 65536 :: 0 :: 0 :: (ftWords F ++
      ((2 * name.length + 2) :: 0 :: (name ++ (0 :: rest))))) 16 =
      .ok (2 * name.length + 2) := by
    rw [show (1 :: 0 :: 774 :: 0 :: 0 :: 0 :: 0 :: 0 :: sz % 65536 ::
      sz / 65536 % 65536 :: 0 :: 0 :: (ftWords F ++
      ((2 * name.length + 2) :: 0 :: (name ++ (0 :: rest))))) =
      1 :: 0 :: 774 :: 0 :: 0 :: 0 :: 0 :: 0 :: sz % 65536 ::
      sz / 65536 % 65536 :: 0 :: 0 :: F % 65536 :: F / 65536 % 65536 ::
      F / 4294967296 % 65536 :: F / 281474976710656 % 65536 ::
      (2 * name.length + 2) :: 0 :: (name ++ (0 :: rest)) from by
      simp [ftWords]]
    rfl
  have harith : (2 * name.length + 2) / 2 = name.length + 1 := by omega
  have hslice2 : pySlice (1 :: 0 :: 774 :: 0 :: 0 :: 0 :: 0 :: 0 ::
      sz % 65536 :: sz / 65536 % 65536 :: 0 :: 0 :: (ftWords F ++
      ((2 * name.length + 2) :: 0 :: (name ++ (0 :: rest))))) 17
      (17 + (name.length + 1)) = 0 :: name :=
    pySlice_mid ([1, 0, 774, 0, 0, 0, 0, 0, sz % 65536, sz / 65536 % 65536,
      0, 0] ++ ftWords F ++ [2 * name.length + 2]) (0 :: name) _ 17
      (17 + (name.length + 1)) (by simp [ftWords])
      (by simp [ftWords] <;> omega)
  have hdrop : List.drop (18 + (name.length + 1)) (1 :: 0 :: 774 :: 0 ::
      0 :: 0 :: 0 :: 0 :: sz % 65536 :: sz / 65536 % 65536 :: 0 :: 0 ::
      (ftWords F ++
      ((2 * name.length + 2) :: 0 :: (name ++ (0 :: rest))))) = rest := by
    rw [show (1 :: 0 :: 774 :: 0 :: 0 :: 0 :: 0 :: 0 :: sz % 65536 ::
      sz / 65536 % 65536 :: 0 :: 0 :: (ftWords F ++
      ((2 * name.length + 2) :: 0 :: (name ++ (0 :: rest))))) =
      (1 :: 0 :: 774 :: 0 :: 0 :: 0 :: 0 :: 0 :: sz % 65536 ::
        sz / 65536 % 65536 :: 0 :: 0 :: ftWords F ++
        ((2 * name.length + 2) :: 0 :: name) ++ [0]) ++ rest from by simp]
    rw [show 18 + (name.length + 1) =
      (1 :: 0 :: 774 :: 0 :: 0 :: 0 :: 0 :: 0 :: sz % 65536 ::
        sz / 65536 % 65536 :: 0 :: 0 :: ftWords F ++
        ((2 * name.length + 2) :: 0 :: name) ++ [0]).length from by
      simp [ftWords]; omega]
    exact List.drop_left _ _
  have hszw : ((sz / 65536 % 65536) <<< 16) + sz % 65536 = sz := by
    simp only [Nat.shiftLeft_eq, Nat.reducePow]
    omega
  simp only [hg9, hg8, hslice, filetimeToTimestamp_ftWords F hF, hget16,
    harith, hslice2, hdrop, hrest, extractChars_zeroCons hname, hszw,
    Bind.bind, Except.bind, pure, Except.pure]

theorem drop370_shape (p : ContParams) :
    List.drop 370 (contStream p) =
      22 :: 0 :: (makeContDateString p.record ++ (0 :: (1 :: 0 :: 774 :: 0 :: 0 :: 0 :: 0 :: 0 :: p.fileSize % 65536 :: p.fileSize / 65536 % 65536 :: 0 :: 0 :: (ftWords (makeWindowsFiletime p.m2tsCreation) ++ ((2 * p.fname.length + 2) :: 0 :: (p.fname ++ (0 :: (2 :: 0 :: 0 :: 0 :: 0 :: 0 :: 0 :: 0 :: (ftWords (makeWindowsFiletime p.tmbCreation) ++ ((2 * p.tmbName.length + 2) :: 0 :: (p.tmbName ++ (0 :: (4 :: 0 :: (ftWords (makeWindowsFiletime p.pmpdCreation) ++ ((2 * p.pmpdName.length + 2) :: 0 :: (p.pmpdName ++ (0 :: []))))))))))))))))) := rfl

theorem contScan_eval (p : ContParams)
    (hsz : p.fileSize < 4294967296)
    (hcr1 : p.m2tsCreation ≤ 253402300799)
    (hcr2 : p.tmbCreation ≤ 253402300799)
    (hcr3 : p.pmpdCreation ≤ 253402300799)
    (hfn : ∀ c ∈ p.fname, c ≠ 0 ∧ c < 1114112)
    (htn : ∀ c ∈ p.tmbName, c ≠ 0 ∧ c < 1114112)
    (hpn : ∀ c ∈ p.pmpdName, c ≠ 0 ∧ c < 1114112) :
    scanRecords (List.drop 370 (contStream p)) =
      .ok [Rec.datestamp (makeContDateString p.record),
        Rec.videoRef p.fileSize (makeWindowsFiletime p.m2tsCreation / 10)
          p.fname,
        Rec.thumbRef (makeWindowsFiletime p.tmbCreation / 10) p.tmbName,
        Rec.xmlRef (makeWindowsFiletime p.pmpdCreation / 10) p.pmpdName] := by
  have hF1 : makeWindowsFiletime p.m2tsCreation ≤ 2650467743999999999 := by
    unfold makeWindowsFiletime; omega
  have hF2 : makeWindowsFiletime p.tmbCreation ≤ 2650467743999999999 := by
    unfold makeWindowsFiletime; omega
  have hF3 : makeWindowsFiletime p.pmpdCreation ≤ 2650467743999999999 := by
    unfold makeWindowsFiletime; omega
  have h0 : scanRecords ([] : List ℕ) = .ok [] := rfl
  have hx := scanXml_step (makeWindowsFiletime p.pmpdCreation) p.pmpdName
    [] [] hF3 hpn h0
  have ht := scanThumb_step (makeWindowsFiletime p.tmbCreation) p.tmbName
    _ _ hF2 htn hx
  have hv := scanVideo_step p.fileSize (makeWindowsFiletime p.m2tsCreation)
    p.fname _ _ hsz hF1 hfn ht
  have hd := scanDatestamp_step (makeContDateString p.record) _ _
    (mcds_ne p.record) hv
  rw [drop370_shape p]
  exact hd

/-- Generic evaluation of `printCont` when the header is detected at 37 and
every access is given: the simp happens over an opaque `data` variable, so
the proof term stays small. -/
theorem printCont_spec (data : List ℕ)
    {t1v t2v t3v t4v : PyDateTime}
    {hiv lov u74 u75 u76 u82 u83 u84 u85 u86 u88 fw fh aw ah fr u100 u102
      asv u104 bhiv blov bdv chv fqv : ℕ}
    {m br dv : List ℕ} {rs : List Rec}
    (hn : detectHeader data = Except.ok 37)
    (hm : extractChars (pySlice data 0 7) = m)
    (ht1 : readContTimestamp (pySlice data 37 45) = .ok t1v)
    (ht2 : readContTimestamp (pySlice data 45 53) = .ok t2v)
    (ht3 : readContTimestamp (pySlice data 53 61) = .ok t3v)
    (ht4 : readContTimestamp (pySlice data 61 69) = .ok t4v)
    (hhi : pyGet data 71 = .ok hiv) (hlo : pyGet data 70 = .ok lov)
    (h74 : pyGet data 74 = .ok u74) (h75 : pyGet data 75 = .ok u75)
    (h76 : pyGet data 76 = .ok u76) (h82 : pyGet data 82 = .ok u82)
    (h83 : pyGet data 83 = .ok u83) (h84 : pyGet data 84 = .ok u84)
    (h85 : pyGet data 85 = .ok u85) (h86 : pyGet data 86 = .ok u86)
    (h88 : pyGet data 88 = .ok u88) (h90 : pyGet data 90 = .ok fw)
    (h92 : pyGet data 92 = .ok fh) (h94 : pyGet data 94 = .ok aw)
    (h96 : pyGet data 96 = .ok ah) (h98 : pyGet data 98 = .ok fr)
    (h100 : pyGet data 100 = .ok u100) (h102 : pyGet data 102 = .ok u102)
    (h103 : pyGet data 103 = .ok asv) (h104 : pyGet data 104 = .ok u104)
    (h107 : pyGet data 107 = .ok bhiv) (h106 : pyGet data 106 = .ok blov)
    (h108 : pyGet data 108 = .ok bdv) (h109 : pyGet data 109 = .ok chv)
    (h110 : pyGet data 110 = .ok fqv)
    (hbr : extractChars (pySlice data 114 242) = br)
    (hdv : extractChars (pySlice data 242 370) = dv)
    (hrs : scanRecords (List.drop 370 data) = .ok rs) :
    printCont data =
      .ok { magic := m, headerLen := 37, recorded := t1v,
            recordedUtc := t2v, modified := t3v, created := t4v,
            fileSize := (hiv <<< 16) + lov, frameW := fw, frameH := fh,
            aspectW := aw, aspectH := ah, frameRate := fr,
            audioStream := asv, audioBitrate := (bhiv <<< 16) + blov,
            audioBitdepth := bdv, audioChannels := chv, audioFreq := fqv,
            brand := br, device := dv, records := rs } := by
  simp only [printCont, hn, Bind.bind, Except.bind, Nat.reduceAdd, hm,
    ht1, ht2, ht3, ht4, hhi, hlo, h74, h75, h76, h82, h83, h84, h85, h86,
    h88, h90, h92, h94, h96, h98, h100, h102, h103, h104, h107, h106,
    h108, h109, h110, hbr, hdv, hrs, pure, Except.pure]

/-- Decoding the encoder's word stream recovers every field, under the
side conditions that no earlier detection candidate fires, the four
timestamps are valid calendar dates, the creation times are within
`datetime`'s range, and the numeric fields are in range.  Candidate 37
itself need not fire: if its year test fails the loop falls through to 37
anyway. -/
theorem printCont_eval (p : ContParams)
    (hdet : ∀ n ∈ [29, 30, 31, 32, 33, 34, 35, 36],
      headerCond (contStream p) n = Except.ok false)
    (hv1 : datetimeOk p.record = true) (hv2 : datetimeOk p.recordUtc = true)
    (hv3 : datetimeOk p.modified = true) (hv4 : datetimeOk p.created = true)
    (hsz : p.fileSize < 4294967296) (hbr : p.audioBitrate < 4294967296)
    (hcr1 : p.m2tsCreation ≤ 253402300799)
    (hcr2 : p.tmbCreation ≤ 253402300799)
    (hcr3 : p.pmpdCreation ≤ 253402300799)
    (hfn : ∀ c ∈ p.fname, c ≠ 0 ∧ c < 1114112)
    (htn : ∀ c ∈ p.tmbName, c ≠ 0 ∧ c < 1114112)
    (hpn : ∀ c ∈ p.pmpdName, c ≠ 0 ∧ c < 1114112) :
    printCont (contStream p) =
      .ok { magic := [80, 95, 67, 111, 110, 116, 95], headerLen := 37,
            recorded := p.record, recordedUtc := p.recordUtc,
            modified := p.modified, created := p.created,
            fileSize := p.fileSize, frameW := 1920, frameH := 1080,
            aspectW := 16, aspectH := 9, frameRate := 25,
            audioStream := p.audioStream, audioBitrate := p.audioBitrate,
            audioBitdepth := p.audioBitdepth,
            audioChannels := p.audioChannels,
            audioFreq := p.audioFrequency,
            brand := [80, 97, 110, 97, 115, 111, 110, 105, 99, 10],
            device := [48, 49, 10, 72, 67, 45, 86, 50, 49, 48, 47, 86, 49,
              49, 48, 10, 48, 48, 10, 48, 48, 10],
            records := [Rec.datestamp (makeContDateString p.record),
              Rec.videoRef p.fileSize
                (makeWindowsFiletime p.m2tsCreation / 10) p.fname,
              Rec.thumbRef (makeWindowsFiletime p.tmbCreation / 10)
                p.tmbName,
              Rec.xmlRef (makeWindowsFiletime p.pmpdCreation / 10)
                p.pmpdName] } := by
  have g37 : pyGet (contStream p) 37 = .ok 0 := rfl
  have g45 : pyGet (contStream p) 45 = .ok 0 := rfl
  have g53 : pyGet (contStream p) 53 = .ok 0 := rfl
  have g61 : pyGet (contStream p) 61 = .ok 0 := rfl
  have g38 : pyGet (contStream p) 38 = .ok p.record.year := rfl
  have g46 : pyGet (contStream p) 46 = .ok p.recordUtc.year := rfl
  have hc37 : headerCond (contStream p) 37 =
      .ok (decide (p.record.year = p.recordUtc.year)) := by
    simp [headerCond, g37, g45, g53, g61, g38, g46, Bind.bind,
      Except.bind, pure, Except.pure]
  have h29 := hdet 29 (by decide)
  have h30 := hdet 30 (by decide)
  have h31 := hdet 31 (by decide)
  have h32 := hdet 32 (by decide)
  have h33 := hdet 33 (by decide)
  have h34 := hdet 34 (by decide)
  have h35 := hdet 35 (by decide)
  have h36 := hdet 36 (by decide)
  have hdet37 : detectHeader (contStream p) = .ok 37 := by
    by_cases hyy : p.record.year = p.recordUtc.year <;>
      simp [detectHeader, detectLoop, h29, h30, h31, h32, h33, h34, h35,
        h36, hc37, hyy, Bind.bind, Except.bind, pure, Except.pure]
  have t1 : readContTimestamp (pySlice (contStream p) 37 45) =
      .ok p.record := by
    rw [show readContTimestamp (pySlice (contStream p) 37 45) =
      if datetimeOk p.record then pure p.record
      else Except.error FormatError.valueError from rfl, if_pos hv1]
    rfl
  have t2 : readContTimestamp (pySlice (contStream p) 45 53) =
      .ok p.recordUtc := by
    rw [show readContTimestamp (pySlice (contStream p) 45 53) =
      if datetimeOk p.recordUtc then pure p.recordUtc
      else Except.error FormatError.valueError from rfl, if_pos hv2]
    rfl
  have t3 : readContTimestamp (pySlice (contStream p) 53 61) =
      .ok p.modified := by
    rw [show readContTimestamp (pySlice (contStream p) 53 61) =
      if datetimeOk p.modified then pure p.modified
      else Except.error FormatError.valueError from rfl, if_pos hv3]
    rfl
  have t4 : readContTimestamp (pySlice (contStream p) 61 69) =
      .ok p.created := by
    rw [show readContTimestamp (pySlice (contStream p) 61 69) =
      if datetimeOk p.created then pure p.created
      else Except.error FormatError.valueError from rfl, if_pos hv4]
    rfl
  have g71 : pyGet (contStream p) 71 = .ok (p.fileSize / 65536 % 65536) :=
    rfl
  have g70 : pyGet (contStream p) 70 = .ok (p.fileSize % 65536) := rfl
  have g74 : pyGet (contStream p) 74 = .ok (4224) := rfl
  have g75 : pyGet (contStream p) 75 = .ok (19064) := rfl
  have g76 : pyGet (contStream p) 76 = .ok (0) := rfl
  have g82 : pyGet (contStream p) 82 = .ok (26570) := rfl
  have g83 : pyGet (contStream p) 83 = .ok (240) := rfl
  have g84 : pyGet (contStream p) 84 = .ok (1) := rfl
  have g85 : pyGet (contStream p) 85 = .ok (256) := rfl
  have g86 : pyGet (contStream p) 86 = .ok (32) := rfl
  have g88 : pyGet (contStream p) 88 = .ok (0) := rfl
  have g90 : pyGet (contStream p) 90 = .ok (1920) := rfl
  have g92 : pyGet (contStream p) 92 = .ok (1080) := rfl
  have g94 : pyGet (contStream p) 94 = .ok (16) := rfl
  have g96 : pyGet (contStream p) 96 = .ok (9) := rfl
  have g98 : pyGet (contStream p) 98 = .ok (25) := rfl
  have g100 : pyGet (contStream p) 100 = .ok (1) := rfl
  have g102 : pyGet (contStream p) 102 = .ok (128) := rfl
  have g103 : pyGet (contStream p) 103 = .ok (p.audioStream) := rfl
  have g104 : pyGet (contStream p) 104 = .ok (1) := rfl
  have g106 : pyGet (contStream p) 106 = .ok (p.audioBitrate % 65536) := rfl
  have g107 : pyGet (contStream p) 107 = .ok (p.audioBitrate / 65536 % 65536) := rfl
  have g108 : pyGet (contStream p) 108 = .ok (p.audioBitdepth) := rfl
  have g109 : pyGet (contStream p) 109 = .ok (p.audioChannels) := rfl
  have g110 : pyGet (contStream p) 110 = .ok (p.audioFrequency) := rfl
  have hmagic : extractChars (pySlice (contStream p) 0 7) =
      [80, 95, 67, 111, 110, 116, 95] := rfl
  have hbrand : extractChars (pySlice (contStream p) 114 242) =
      [80, 97, 110, 97, 115, 111, 110, 105, 99, 10] := rfl
  have hdevice : extractChars (pySlice (contStream p) 242 370) =
      [48, 49, 10, 72, 67, 45, 86, 50, 49, 48, 47, 86, 49, 49, 48, 10, 48,
        48, 10, 48, 48, 10] := rfl
  have hscan := contScan_eval p hsz hcr1 hcr2 hcr3 hfn htn hpn
  have hfsz : ((p.fileSize / 65536 % 65536) <<< 16) + p.fileSize % 65536 =
      p.fileSize := by
    simp only [Nat.shiftLeft_eq, Nat.reducePow]; omega
  have hbrv : ((p.audioBitrate / 65536 % 65536) <<< 16) +
      p.audioBitrate % 65536 = p.audioBitrate := by
    simp only [Nat.shiftLeft_eq, Nat.reducePow]; omega
  have h := printCont_spec (contStream p) hdet37 hmagic t1 t2 t3 t4 g71
    g70 g74 g75 g76 g82 g83 g84 g85 g86 g88 g90 g92 g94 g96 g98 g100 g102
    g103 g104 g107 g106 g108 g109 g110 hbrand hdevice hscan
  rw [hfsz, hbrv] at h
  exact h

/-- The day table never exceeds 31, so a valid date's fields are all small.
-/
theorem daysInMonth_le (y m : ℕ) : daysInMonth y m ≤ 31 := by
  unfold daysInMonth
  split
  · split <;> omega
  · split
    · omega
    · split <;> omega

/-- C1 (corrected).  Round trip: decoding the encoder's output recovers the
file size, the four timestamps, the video/thumbnail/XML filenames, and the
audio stream id, bitrate, bit depth, channel count and frequency exactly;
the brand and device strings, however, are recovered in decorated form -
`extractChars` collapses each padding NUL run to a single newline, so the
brand reads back as "Panasonic\n" and the device as the full
"01\nHC-V210/V110\n00\n00\n" block, not the bare literals.  Presumed: the
timestamps are valid calendar dates (anything the real encoder receives as a
`datetime` object is), the creation times are within `datetime`'s range, the
numeric fields fit their 16/32-bit widths, the names are NUL-free 16-bit
text, and no detection candidate in [29, 37) fires on the built preamble. -/
theorem contRoundTripAmended (p : ContParams)
    (hv1 : datetimeOk p.record = true) (hv2 : datetimeOk p.recordUtc = true)
    (hv3 : datetimeOk p.modified = true) (hv4 : datetimeOk p.created = true)
    (hsz : p.fileSize < 4294967296)
    (has : p.audioStream < 65536) (hbr : p.audioBitrate < 4294967296)
    (hbd : p.audioBitdepth < 65536) (hch : p.audioChannels < 65536)
    (hfq : p.audioFrequency < 65536)
    (hfn : ∀ c ∈ p.fname, c ≠ 0 ∧ c < 65536)
    (hfl : p.fname.length ≤ 32766)
    (htn : ∀ c ∈ p.tmbName, c ≠ 0 ∧ c < 65536)
    (htl : p.tmbName.length ≤ 32766)
    (hpn : ∀ c ∈ p.pmpdName, c ≠ 0 ∧ c < 65536)
    (hpl : p.pmpdName.length ≤ 32766)
    (hcr1 : p.m2tsCreation ≤ 253402300799)
    (hcr2 : p.tmbCreation ≤ 253402300799)
    (hcr3 : p.pmpdCreation ≤ 253402300799)
    (hdet : ∀ n ∈ [29, 30, 31, 32, 33, 34, 35, 36],
      headerCond (contStream p) n = Except.ok false) :
    contPipeline p =
      .ok { magic := [80, 95, 67, 111, 110, 116, 95], headerLen := 37,
            recorded := p.record, recordedUtc := p.recordUtc,
            modified := p.modified, created := p.created,
            fileSize := p.fileSize, frameW := 1920, frameH := 1080,
            aspectW := 16, aspectH := 9, frameRate := 25,
            audioStream := p.audioStream, audioBitrate := p.audioBitrate,
            audioBitdepth := p.audioBitdepth,
            audioChannels := p.audioChannels,
            audioFreq := p.audioFrequency,
            brand := [80, 97, 110, 97, 115, 111, 110, 105, 99, 10],
            device := [48, 49, 10, 72, 67, 45, 86, 50, 49, 48, 47, 86, 49,
              49, 48, 10, 48, 48, 10, 48, 48, 10],
            records := [Rec.datestamp (makeContDateString p.record),
              Rec.videoRef p.fileSize
                (makeWindowsFiletime p.m2tsCreation / 10) p.fname,
              Rec.thumbRef (makeWindowsFiletime p.tmbCreation / 10)
                p.tmbName,
              Rec.xmlRef (makeWindowsFiletime p.pmpdCreation / 10)
                p.pmpdName] } := by
  have hfn1 : ∀ c ∈ p.fname, c < 65536 := fun c hc => (hfn c hc).2
  have htn1 : ∀ c ∈ p.tmbName, c < 65536 := fun c hc => (htn c hc).2
  have hpn1 : ∀ c ∈ p.pmpdName, c < 65536 := fun c hc => (hpn c hc).2
  have hfn2 : ∀ c ∈ p.fname, c ≠ 0 ∧ c < 1114112 := fun c hc =>
    ⟨(hfn c hc).1, lt_trans (hfn c hc).2 (by norm_num)⟩
  have htn2 : ∀ c ∈ p.tmbName, c ≠ 0 ∧ c < 1114112 := fun c hc =>
    ⟨(htn c hc).1, lt_trans (htn c hc).2 (by norm_num)⟩
  have hpn2 : ∀ c ∈ p.pmpdName, c ≠ 0 ∧ c < 1114112 := fun c hc =>
    ⟨(hpn c hc).1, lt_trans (hpn c hc).2 (by norm_num)⟩
  have hd1 := daysInMonth_le p.record.year p.record.month
  have hd2 := daysInMonth_le p.recordUtc.year p.recordUtc.month
  have hd3 := daysInMonth_le p.modified.year p.modified.month
  have hd4 := daysInMonth_le p.created.year p.created.month
  have q1 := of_decide_eq_true hv1
  have q2 := of_decide_eq_true hv2
  have q3 := of_decide_eq_true hv3
  have q4 := of_decide_eq_true hv4
  have h1 : p.record.year < 65536 ∧ p.record.month < 65536 ∧
      p.record.day < 65536 ∧ p.record.hour < 65536 ∧
      p.record.minute < 65536 ∧ p.record.second < 65536 := by
    obtain ⟨a1, a2, a3, a4, a5, a6, a7, a8, a9⟩ := q1
    omega
  have h2 : p.recordUtc.year < 65536 ∧ p.recordUtc.month < 65536 ∧
      p.recordUtc.day < 65536 ∧ p.recordUtc.hour < 65536 ∧
      p.recordUtc.minute < 65536 ∧ p.recordUtc.second < 65536 := by
    obtain ⟨a1, a2, a3, a4, a5, a6, a7, a8, a9⟩ := q2
    omega
  have h3 : p.modified.year < 65536 ∧ p.modified.month < 65536 ∧
      p.modified.day < 65536 ∧ p.modified.hour < 65536 ∧
      p.modified.minute < 65536 ∧ p.modified.second < 65536 := by
    obtain ⟨a1, a2, a3, a4, a5, a6, a7, a8, a9⟩ := q3
    omega
  have h4 : p.created.year < 65536 ∧ p.created.month < 65536 ∧
      p.created.day < 65536 ∧ p.created.hour < 65536 ∧
      p.created.minute < 65536 ∧ p.created.second < 65536 := by
    obtain ⟨a1, a2, a3, a4, a5, a6, a7, a8, a9⟩ := q4
    omega
  have hcr1a : p.m2tsCreation ≤ 1000000000000 := by omega
  have hcr2a : p.tmbCreation ≤ 1000000000000 := by omega
  have hcr3a : p.pmpdCreation ≤ 1000000000000 := by omega
  have he := buildMetadata_eval p h1 h2 h3 h4 hsz has hbr hbd hch hfq hfn1
    hfl htn1 htl hpn1 hpl hcr1a hcr2a hcr3a
  have hd := printCont_eval p hdet hv1 hv2 hv3 hv4 hsz hbr hcr1 hcr2 hcr3
    hfn2 htn2 hpn2
  unfold contPipeline
  rw [he]
  simpa [Except.bind] using hd

/-- Witness for C1 at the sample parameter set. -/
theorem contRoundTripAmended_witness :
    contPipeline sampleParams =
      .ok { magic := [80, 95, 67, 111, 110, 116, 95], headerLen := 37,
            recorded := sampleParams.record,
            recordedUtc := sampleParams.recordUtc,
            modified := sampleParams.modified,
            created := sampleParams.created,
            fileSize := sampleParams.fileSize, frameW := 1920,
            frameH := 1080, aspectW := 16, aspectH := 9, frameRate := 25,
            audioStream := sampleParams.audioStream,
            audioBitrate := sampleParams.audioBitrate,
            audioBitdepth := sampleParams.audioBitdepth,
            audioChannels := sampleParams.audioChannels,
            audioFreq := sampleParams.audioFrequency,
            brand := [80, 97, 110, 97, 115, 111, 110, 105, 99, 10],
            device := [48, 49, 10, 72, 67, 45, 86, 50, 49, 48, 47, 86, 49,
              49, 48, 10, 48, 48, 10, 48, 48, 10],
            records := [Rec.datestamp (makeContDateString
                sampleParams.record),
              Rec.videoRef sampleParams.fileSize
                (makeWindowsFiletime sampleParams.m2tsCreation / 10)
                sampleParams.fname,
              Rec.thumbRef
                (makeWindowsFiletime sampleParams.tmbCreation / 10)
                sampleParams.tmbName,
              Rec.xmlRef
                (makeWindowsFiletime sampleParams.pmpdCreation / 10)
                sampleParams.pmpdName] } :=
  contRoundTripAmended sampleParams (by decide) (by decide) (by decide)
    (by decide) (by decide) (by decide) (by decide) (by decide) (by decide)
    (by decide) (by decide) (by decide) (by decide) (by decide) (by decide)
    (by decide) (by decide) (by decide) (by decide) (by decide)

/-- C1 counterexample: on the sample parameters the decoder recovers the
brand as "Panasonic\n" and the device as the "01\nHC-V210/V110\n..." block,
not the bare encoder literals. -/
theorem contRoundTrip_counterexample :
    ∃ d, (buildMetadata sampleParams).map readFile16 =
        Except.ok (contStream sampleParams) ∧
      printCont (contStream sampleParams) = Except.ok d ∧
      d.brand ≠ [80, 97, 110, 97, 115, 111, 110, 105, 99] ∧
      d.device ≠ [72, 67, 45, 86, 50, 49, 48, 47, 86, 49, 49, 48] := by
  have he := buildMetadata_eval sampleParams (by decide) (by decide)
    (by decide) (by decide) (by decide) (by decide) (by decide) (by decide)
    (by decide) (by decide) (by decide) (by decide) (by decide) (by decide)
    (by decide) (by decide) (by decide) (by decide) (by decide)
  have hd := printCont_eval sampleParams (by decide) (by decide) (by decide)
    (by decide) (by decide) (by decide) (by decide) (by decide) (by decide)
    (by decide) (by decide) (by decide) (by decide)
  exact ⟨_, he, hd, by decide, by decide⟩
